import Mathlib

/-!
Shallow embedding of the building-code dashboard's jurisdiction lookup and
report-composition engine.

The embedded program consists of:
* a static jurisdiction dataset (`JURISDICTIONS₀`) together with the code-book
  source catalogue (`CODE_SOURCES`, `DATA_SOURCES`),
* a fallback pass (`applyFallback`, from `src/js/fallback-states.js`) that adds
  minimal stub entries for states missing from the dataset,
* the search/autocomplete function (`buildSuggestions`),
* the report composer (`showReport` / `buildSourcesPanel` / `renderCodeCard`
  structured essence, with `composeReport` modelling the lookup at the call
  sites).

JavaScript objects are modelled as association lists in insertion order
(`Object.keys` = `map Prod.fst`, `Object.values` = `map Prod.snd`,
property lookup = `List.lookup`).  JavaScript string operations are modelled
on `List Char` (`trim`, `split(',')`, `toLowerCase`, `includes`, and the
trailing-zip-code `replace`).  The HTML strings produced by the renderer are
presentation only; the structured values they interpolate (counts, flags,
breadcrumbs, source rows) are collected in the `Report` structure.
-/

namespace Dashboard

/-! ### JavaScript string primitives -/

/-- Whitespace test used by `String.prototype.trim` (modelled by Lean's
`Char.isWhitespace`). -/
def isWs (c : Char) : Bool := c.isWhitespace

/-- Characters of a string with leading and trailing whitespace removed,
modelling `s.trim()`. -/
def trimChars (l : List Char) : List Char :=
  ((l.dropWhile isWs).reverse.dropWhile isWs).reverse

/-- Model of `s.trim()`. -/
def jsTrim (s : String) : String := ⟨trimChars s.data⟩

/-- Model of `s.toLowerCase()` (ASCII-adequate for this dataset). -/
def jsToLower (s : String) : String := ⟨s.data.map Char.toLower⟩

/-- Model of `s.toUpperCase()`. -/
def jsUpper (s : String) : String := ⟨s.data.map Char.toUpper⟩

/-- Boolean prefix test: `isPrefixB need hay` holds when `need` is an initial
segment of `hay`. -/
def isPrefixB : List Char → List Char → Bool
  | [], _ => true
  | _ :: _, [] => false
  | c :: cs, d :: ds => c == d && isPrefixB cs ds

/-- Boolean substring test: `subList need hay` holds when `need` occurs
contiguously inside `hay`. -/
def subList (need : List Char) : List Char → Bool
  | [] => isPrefixB need []
  | d :: ds => isPrefixB need (d :: ds) || subList need ds

/-- Model of `s.includes(t)`. -/
def jsIncludes (s t : String) : Bool := subList t.data s.data

/-- Model of JavaScript `||` on strings used as a default (empty string is
falsy). -/
def jsOr (s d : String) : String := if s = "" then d else s

/-- Model of `query.split(',')`: split a character list at every separator,
keeping empty pieces (`"".split(',')` is `[""]`). -/
def jsSplit (sep : Char) : List Char → List (List Char)
  | [] => [[]]
  | c :: rest =>
    if c == sep then [] :: jsSplit sep rest
    else
      match jsSplit sep rest with
      | [] => [[c]]
      | p :: ps => (c :: p) :: ps

/-- Consume exactly `n` decimal digits from the front of a character list. -/
def dropDigits : Nat → List Char → Option (List Char)
  | 0, l => some l
  | _ + 1, [] => none
  | n + 1, c :: l => if c.isDigit then dropDigits n l else none

/-- On a REVERSED character list, try to strip `\d{5}` preceded by at least one
whitespace character (the `\s+\d{5}$` core of the zip-code regex). -/
def stripZipCore (r : List Char) : Option (List Char) :=
  match dropDigits 5 r with
  | some (c :: rest) =>
    if isWs c then some ((c :: rest).dropWhile isWs) else none
  | _ => none

/-- On a REVERSED character list, model
`replace(/\s+\d{5}(-\d{4})?$/, '')`: strip a trailing 5-digit zip code with
optional `-dddd` extension, preceded by whitespace; return the input unchanged
when the pattern does not match at the end. -/
def stripZipRev (r : List Char) : List Char :=
  match dropDigits 4 r with
  | some ('-' :: rest) =>
    match stripZipCore rest with
    | some r2 => r2
    | none => r
  | _ =>
    match stripZipCore r with
    | some r2 => r2
    | none => r

/-- Processing of one comma-separated piece of the query:
`p.trim().replace(/\s+\d{5}(-\d{4})?$/, '').trim()`. -/
def tokenOfPart (p : List Char) : String :=
  ⟨trimChars ((stripZipRev (trimChars p).reverse).reverse)⟩

/-- First-occurrence de-duplication with an explicit seen accumulator,
modelling iteration order of a JavaScript `Set`. -/
def dedupFirstAux [DecidableEq α] : List α → List α → List α
  | [], _ => []
  | a :: as, seen =>
    if a ∈ seen then dedupFirstAux as seen else a :: dedupFirstAux as (a :: seen)

/-- Model of `[...new Set(l)]`: keep the first occurrence of each element, in
order. -/
def dedupFirst [DecidableEq α] (l : List α) : List α := dedupFirstAux l []

/-! ### Data model -/

/-- One code-adoption record: `{ year, status, effective, amendments }`.
`year` is `null` (`none`) for proprietary codes. -/
structure CodeAdoption where
  year : Option Nat
  status : String
  effective : String
  amendments : List String
deriving DecidableEq, Repr

/-- A fire-district adoption entry carries only `{ year, amendments }` in the
dataset. -/
structure FireCode where
  year : Option Nat
  amendments : List String
deriving DecidableEq, Repr

/-- A named fire district with its own adoption mapping. -/
structure FireDistrict where
  name : String
  adopted : List (String × FireCode)
deriving DecidableEq, Repr

/-- A city or county record nested under a state. -/
structure LocalRecord where
  type : String
  note : Option String := none
  adopted : List (String × CodeAdoption)
  fireDistricts : List FireDistrict := []
deriving DecidableEq, Repr

/-- A state-level jurisdiction entry. -/
structure Jurisdiction where
  name : String
  abbr : String
  region : String
  stateNote : String
  adopted : List (String × CodeAdoption)
  cities : List (String × LocalRecord)
  counties : List (String × LocalRecord)
deriving DecidableEq, Repr

/-- A data source from the `DATA_SOURCES` catalogue.  Presentation-only fields
(`icon`, `label`, `note`) are omitted; `stateUrl` is the optional
per-jurisdiction URL function. -/
structure DataSource where
  url : String
  stateUrl : Option (String → String) := none
  codes : List String

/-! ### Source catalogue (from the dataset file) -/

/-- Mapping from code key to its canonical source identifier
(`CODE_SOURCES`). -/
def CODE_SOURCES : List (String × String) :=
  [("IBC", "icc_chart"), ("IRC", "icc_chart"), ("IFC", "icc_chart"),
   ("IMC", "icc_chart"), ("IPC", "icc_chart"), ("IECC", "icc_chart"),
   ("IEBC", "icc_chart"), ("IGCC", "icc_chart"), ("IFGC", "icc_chart"),
   ("NEC", "nec_nfpa"),
   ("NFPA1", "nfpa_atc"), ("NFPA13", "nfpa_atc"), ("NFPA72", "nfpa_atc"),
   ("UPC", "iapmo_upc"), ("UMC", "iapmo_umc"),
   ("CBC", "ca_bsc"), ("CMC", "ca_bsc"), ("CPC", "ca_bsc"), ("CEC", "ca_bsc"),
   ("NYSBC", "nys_dos"), ("OSSC", "or_bcd"), ("WSEC", "wa_sbcc")]

def icc_chart : DataSource :=
  { url := "https://www.iccsafe.org/wp-content/uploads/Master-I-Code-Adoption-Chart.pdf",
    codes := ["IBC", "IRC", "IFC", "IMC", "IPC", "IECC", "IEBC", "IGCC", "IFGC"] }

def nec_nfpa : DataSource :=
  { url := "https://www.nfpa.org/education-and-research/electrical/nec-enforcement-maps",
    codes := ["NEC"] }

/-- Per-state DOE BECP portal URL: `(abbr) =>
https://www.energycodes.gov/status/states/${abbr.toLowerCase()}`. -/
def becpStateUrl (abbr : String) : String :=
  "https://www.energycodes.gov/status/states/" ++ jsToLower abbr

def becp : DataSource :=
  { url := "https://www.energycodes.gov/status",
    stateUrl := some becpStateUrl,
    codes := ["IECC"] }

def nfpa_atc : DataSource :=
  { url := "https://www.nfpa.org/Codes-and-Standards/Adoption-Tracking-Center",
    codes := ["NFPA1", "NFPA13", "NFPA72"] }

def municode : DataSource :=
  { url := "https://library.municode.com/",
    codes := [] }

def iapmo_upc : DataSource :=
  { url := "https://www.iapmo.org/upc/",
    codes := ["UPC"] }

def iapmo_umc : DataSource :=
  { url := "https://www.iapmo.org/umc/",
    codes := ["UMC"] }

def ca_bsc : DataSource :=
  { url := "https://www.dgs.ca.gov/BSC/Codes",
    codes := ["CBC", "CMC", "CPC", "CEC"] }

def nys_dos : DataSource :=
  { url := "https://dos.ny.gov/building-codes",
    codes := ["NYSBC"] }

def or_bcd : DataSource :=
  { url := "https://www.oregon.gov/bcd/codes-stand/Pages/oregon-codes-standards.aspx",
    codes := ["OSSC"] }

def wa_sbcc : DataSource :=
  { url := "https://sbcc.wa.gov/state-building-codes",
    codes := ["WSEC"] }

/-- The `DATA_SOURCES` catalogue in definition order. -/
def DATA_SOURCES : List (String × DataSource) :=
  [("icc_chart", icc_chart), ("nec_nfpa", nec_nfpa), ("becp", becp),
   ("nfpa_atc", nfpa_atc), ("municode", municode), ("iapmo_upc", iapmo_upc),
   ("iapmo_umc", iapmo_umc), ("ca_bsc", ca_bsc), ("nys_dos", nys_dos),
   ("or_bcd", or_bcd), ("wa_sbcc", wa_sbcc)]

/-! ### The jurisdiction dataset (`const JURISDICTIONS`), transcribed in
definition order.  `CodeAdoption` entries are written with the anonymous
constructor in field order `⟨year, status, effective, amendments⟩`. -/

def AL : Jurisdiction :=
  { name := "Alabama", abbr := "AL", region := "Southeast",
    stateNote := "Alabama adopts statewide codes but allows local amendments.",
    adopted :=
      [("IBC", ⟨some 2018, "adopted", "2021-01-01", ["Section 1612 amended for SFHA requirements", "Local seismic exceptions for northern Alabama"]⟩),
       ("IRC", ⟨some 2018, "adopted", "2021-01-01", []⟩),
       ("IFC", ⟨some 2018, "adopted", "2021-01-01", []⟩),
       ("NEC", ⟨some 2020, "adopted", "2021-07-01", []⟩),
       ("IECC", ⟨some 2018, "adopted", "2021-01-01", ["Climate Zone 2-3 compliance path modified"]⟩)],
    cities :=
      [("Birmingham",
        { type := "city",
          adopted :=
            [("IBC", ⟨some 2018, "adopted", "2021-03-01", ["Chapter 11 Accessibility: enhanced requirements beyond ADAAG", "Section 3409 historic preservation overlay"]⟩),
             ("IRC", ⟨some 2018, "adopted", "2021-03-01", []⟩),
             ("IFC", ⟨some 2021, "adopted", "2023-01-01", ["Sec 903.2.1.2: Sprinklers required in A-2 occupancies >3,000 sq ft"]⟩),
             ("NEC", ⟨some 2020, "adopted", "2021-07-01", ["Art. 210 AFCI requirements expanded to all circuits"]⟩),
             ("IECC", ⟨some 2018, "adopted", "2021-03-01", []⟩),
             ("IEBC", ⟨some 2018, "adopted", "2021-03-01", []⟩)],
          fireDistricts :=
            [{ name := "Birmingham Fire District 1 (Downtown)",
               adopted := [("IFC", ⟨some 2021, ["High-rise buildings: sprinklers required in all floors", "Annual inspection requirements for all commercial"]⟩)] }] }),
       ("Mobile",
        { type := "city",
          adopted :=
            [("IBC", ⟨some 2018, "adopted", "2020-06-01", ["Wind zone amendments: 130 mph design wind speed minimum", "Chapter 16 Structural: hurricane strap requirements"]⟩),
             ("IRC", ⟨some 2018, "adopted", "2020-06-01", ["Section R301 Wind Design: 130 mph Vult minimum"]⟩),
             ("NEC", ⟨some 2017, "adopted", "2019-01-01", []⟩),
             ("IFC", ⟨some 2018, "adopted", "2020-06-01", []⟩)] })],
    counties :=
      [("Jefferson County",
        { type := "county",
          adopted :=
            [("IBC", ⟨some 2018, "adopted", "2021-03-01", []⟩),
             ("IRC", ⟨some 2018, "adopted", "2021-03-01", []⟩),
             ("NEC", ⟨some 2020, "adopted", "2021-07-01", []⟩)] }),
       ("Mobile County",
        { type := "county",
          adopted :=
            [("IBC", ⟨some 2018, "adopted", "2020-09-01", ["Wind speed map overrides per ASCE 7-16 Figure 26.5-1B"]⟩),
             ("NEC", ⟨some 2017, "adopted", "2019-01-01", []⟩)] })] }

def AK : Jurisdiction :=
  { name := "Alaska", abbr := "AK", region := "Pacific Northwest",
    stateNote := "Alaska Fire Marshal adopts IFC statewide. Building codes adopted by local governments; no mandatory statewide building code for municipalities.",
    adopted :=
      [("IFC", ⟨some 2018, "adopted", "2020-01-01", ["Arctic construction provisions added", "Chapter 3: permafrost foundation requirements"]⟩),
       ("NEC", ⟨some 2020, "adopted", "2022-01-01", []⟩)],
    cities :=
      [("Anchorage",
        { type := "municipality",
          adopted :=
            [("IBC", ⟨some 2018, "adopted", "2020-01-01", ["Seismic Design Category D/E requirements per Anchorage overlay", "Section 1609: wind 110 mph Vult", "Snow load requirements: 40-60 psf ground snow"]⟩),
             ("IRC", ⟨some 2018, "adopted", "2020-01-01", ["R301.2: Climate Zone 7 requirements", "Foundation: frost depth 42 inches min"]⟩),
             ("IFC", ⟨some 2018, "adopted", "2020-01-01", []⟩),
             ("NEC", ⟨some 2020, "adopted", "2022-01-01", []⟩),
             ("IECC", ⟨some 2018, "adopted", "2020-01-01", ["CZ 7 envelope requirements: R-49 ceiling, R-30 floor"]⟩),
             ("IMC", ⟨some 2018, "adopted", "2020-01-01", ["Freeze protection requirements for all mechanical systems"]⟩)] }),
       ("Fairbanks",
        { type := "city",
          adopted :=
            [("IBC", ⟨some 2015, "adopted", "2017-01-01", ["Permafrost design requirements Chapter 18", "Extreme cold weather: -60°F design temp"]⟩),
             ("NEC", ⟨some 2017, "adopted", "2019-01-01", []⟩),
             ("IFC", ⟨some 2018, "adopted", "2020-01-01", []⟩)] })],
    counties := [] }

def AZ_Phoenix : LocalRecord :=
  { type := "city",
    adopted :=
      [("IBC", ⟨some 2018, "adopted", "2020-07-01", ["Chapter 16: Seismic Design Category B", "Section 1609: Wind 90 mph Vult", "Appendix G adopted – Flood-Resistant Construction", "Section 420: Residential Group R occupancy sprinkler amendments"]⟩),
       ("IRC", ⟨some 2018, "adopted", "2020-07-01", ["R301.2(4): Ground snow 0 psf", "R302.1: Fire separation distances modified for desert lots"]⟩),
       ("IFC", ⟨some 2018, "adopted", "2020-07-01", ["WUI Chapter 49: Urban interface fire protection", "Section 507: Unlimited area buildings – evaporative cooling provisions"]⟩),
       ("NEC", ⟨some 2020, "adopted", "2022-01-01", ["PV systems: Art. 690 rapid shutdown required", "Art. 310: Conductor ratings adjusted for ambient 100°F"]⟩),
       ("IECC", ⟨some 2018, "adopted", "2020-07-01", ["CZ 2B: Cool roof requirements for low-slope roofs", "Mechanical: evaporative cooling compliance pathway"]⟩),
       ("IMC", ⟨some 2018, "adopted", "2020-07-01", []⟩),
       ("IPC", ⟨some 2018, "adopted", "2020-07-01", ["Water conservation: WaterSense fixtures mandatory for new construction"]⟩)],
    fireDistricts :=
      [{ name := "Phoenix Fire District (unincorporated)",
         adopted := [("IFC", ⟨some 2021, ["High-piled storage regulations per sec. 3205", "Hazmat regulations per CFC equivalents"]⟩)] }] }

def AZ : Jurisdiction :=
  { name := "Arizona", abbr := "AZ", region := "Southwest",
    stateNote := "Arizona has no statewide building code; each municipality adopts independently. State Fire Marshal adopts IFC. ADWR regulates water.",
    adopted :=
      [("IFC", ⟨some 2018, "adopted", "2020-01-01", ["Wildland-Urban Interface provisions mandatory statewide"]⟩),
       ("NEC", ⟨some 2020, "adopted", "2022-01-01", []⟩)],
    cities :=
      [("Phoenix", AZ_Phoenix),
       ("Tucson",
        { type := "city",
          adopted :=
            [("IBC", ⟨some 2018, "adopted", "2020-07-01", ["Climate Zone 2B energy amendments", "Greywater reuse system provisions added"]⟩),
             ("IRC", ⟨some 2018, "adopted", "2020-07-01", ["R325 Greywater systems adopted"]⟩),
             ("IFC", ⟨some 2018, "adopted", "2020-07-01", []⟩),
             ("NEC", ⟨some 2017, "adopted", "2019-01-01", []⟩),
             ("IECC", ⟨some 2018, "adopted", "2020-07-01", ["CZ 2B: Solar-ready provisions for R-1, R-2 mandatory"]⟩)] }),
       ("Scottsdale",
        { type := "city",
          adopted :=
            [("IBC", ⟨some 2021, "adopted", "2022-01-01", ["Desert vegetation fire separation provisions"]⟩),
             ("IRC", ⟨some 2021, "adopted", "2022-01-01", []⟩),
             ("IFC", ⟨some 2021, "adopted", "2022-01-01", ["Enhanced WUI requirements east of Pima Rd"]⟩),
             ("NEC", ⟨some 2020, "adopted", "2022-01-01", []⟩)] })],
    counties :=
      [("Maricopa County",
        { type := "county",
          note := some "Unincorporated areas only.",
          adopted :=
            [("IBC", ⟨some 2018, "adopted", "2020-01-01", []⟩),
             ("IRC", ⟨some 2018, "adopted", "2020-01-01", []⟩),
             ("NEC", ⟨some 2020, "adopted", "2022-01-01", []⟩),
             ("IFC", ⟨some 2018, "adopted", "2020-01-01", []⟩)] }),
       ("Pima County",
        { type := "county",
          note := some "Unincorporated areas only.",
          adopted :=
            [("IBC", ⟨some 2018, "adopted", "2019-10-01", ["Greywater chapter adopted"]⟩),
             ("NEC", ⟨some 2017, "adopted", "2019-01-01", []⟩)] })] }

def CA : Jurisdiction :=
  { name := "California", abbr := "CA", region := "Pacific",
    stateNote := "California has mandatory statewide building standards (Title 24 CCR). Local amendments must be more restrictive and filed with the California Building Standards Commission.",
    adopted :=
      [("CBC", ⟨some 2022, "adopted", "2023-01-01", ["Based on 2021 IBC with California amendments. Seismic SDC D-E-F for most of state.", "Accessibility: enhanced beyond ADA/CBC Chapter 11B"]⟩),
       ("CRC", ⟨some 2022, "adopted", "2023-01-01", ["Based on 2021 IRC. High Wind zone provisions throughout"]⟩),
       ("CEC", ⟨some 2022, "adopted", "2023-01-01", ["Based on 2020 NEC. Additional solar PV requirements per T24 Part 6"]⟩),
       ("CPC", ⟨some 2022, "adopted", "2023-01-01", ["Based on 2021 UPC"]⟩),
       ("CMC", ⟨some 2022, "adopted", "2023-01-01", ["Based on 2021 UMC"]⟩),
       ("IECC", ⟨some 2022, "adopted", "2023-01-01", ["Title 24 Part 6 supersedes – all-electric reach code pathway", "HERS rating requirements"]⟩),
       ("IFC", ⟨some 2022, "adopted", "2023-01-01", ["Based on 2021 IFC with California amendments", "Chapter 49 Wildland-Urban Interface strongly enforced"]⟩)],
    cities :=
      [("Los Angeles",
        { type := "city",
          adopted :=
            [("CBC", ⟨some 2022, "adopted", "2023-01-01", ["LA amendment: LADBS-specific seismic retrofit requirements (soft-story ord.)", "Chapter 91 LABC: local amendments throughout", "Mandatory Earthquake Hazard Reduction: URM and soft-story programs", "Green Building Ordinance: LEED Silver min for new commercial >50k sqft"]⟩),
             ("CEC", ⟨some 2022, "adopted", "2023-01-01", ["All new residential: solar PV mandatory (T24 enhanced)", "EV charging: 25% of parking spaces EV-ready"]⟩),
             ("CPC", ⟨some 2022, "adopted", "2023-01-01", ["Low Impact Development: stormwater capture requirements"]⟩),
             ("IFC", ⟨some 2022, "adopted", "2023-01-01", ["LAFD amendments: high-rise sprinkler retrofit program", "WUI interface extends to Zone A fire overlay"]⟩),
             ("IECC", ⟨some 2022, "adopted", "2023-01-01", ["Reach code: all-electric new construction (residential)", "Solar-ready provisions for CZ 9"]⟩)],
          fireDistricts :=
            [{ name := "LAFD Bureau of Fire Prevention",
               adopted := [("IFC", ⟨some 2022, ["Enhanced high-rise fire safety provisions", "Brush clearance 100ft mandatory in Very High Fire Hazard Severity Zones", "Ember-resistant vents required in VHFHSZ"]⟩)] }] }),
       ("San Francisco",
        { type := "city",
          adopted :=
            [("CBC", ⟨some 2022, "adopted", "2023-01-01", ["SFBC Appendix 4A: San Francisco amendments (extensive)", "Chapter 34B: Unreinforced masonry seismic safety", "Administrative Code Chapter 13: Green Building requirements", "Mandatory soft-story retrofit: Tier 4 buildings"]⟩),
             ("CEC", ⟨some 2022, "adopted", "2023-01-01", ["All-electric: new construction must be all-electric (Building Ordinance 43-21)"]⟩),
             ("CPC", ⟨some 2022, "adopted", "2023-01-01", []⟩),
             ("IFC", ⟨some 2022, "adopted", "2023-01-01", ["SF amendments: Tenderloin/SoMa density-specific fire provisions"]⟩),
             ("IECC", ⟨some 2022, "adopted", "2023-01-01", ["All-electric reach code", "Embodied carbon requirements for buildings >25k sqft"]⟩)] }),
       ("San Diego",
        { type := "city",
          adopted :=
            [("CBC", ⟨some 2022, "adopted", "2023-01-01", ["Climate Zone 7 amendments", "Canyon development fire separation requirements"]⟩),
             ("CEC", ⟨some 2022, "adopted", "2023-01-01", []⟩),
             ("IFC", ⟨some 2022, "adopted", "2023-01-01", ["WUI Chapter: Canyon and chaparral interface provisions enhanced", "Brush Management Zone 1: 100ft", "Brush Management Zone 2: 200ft in Very High Fire Hazard Severity Zone"]⟩)] })],
    counties :=
      [("Los Angeles County",
        { type := "county",
          note := some "Unincorporated areas only.",
          adopted :=
            [("CBC", ⟨some 2022, "adopted", "2023-01-01", ["Title 26 LACC: County amendments to CBC", "Hillside grading requirements Chapter 70"]⟩),
             ("CEC", ⟨some 2022, "adopted", "2023-01-01", []⟩),
             ("IFC", ⟨some 2022, "adopted", "2023-01-01", ["Title 32 LACC: Fire Code", "WUI provisions throughout unincorporated hillside areas"]⟩)] })] }

def CO : Jurisdiction :=
  { name := "Colorado", abbr := "CO", region := "Mountain",
    stateNote := "Colorado has no mandatory statewide building code for commercial buildings. CDPHE adopts codes for health care. DORA/DOLA provides model codes. State Electrical Board adopts NEC. Local governments adopt independently.",
    adopted :=
      [("NEC", ⟨some 2020, "adopted", "2021-01-01", ["Colorado amendments via DORA Electrical Board"]⟩),
       ("IFC", ⟨some 2021, "adopted", "2022-01-01", ["DFPC adopts statewide for unincorporated areas"]⟩)],
    cities :=
      [("Denver",
        { type := "city",
          adopted :=
            [("IBC", ⟨some 2019, "adopted", "2021-01-01", ["Denver Building Code local amendments (extensive - Title 10)", "Chapter 11 Accessibility: enhanced requirements", "Green Building Ordinance: all new commercial must achieve LEED Silver equivalent", "Seismic: SDC A-B, wind 105 mph"]⟩),
             ("IRC", ⟨some 2021, "adopted", "2023-01-01", ["R302: Fire separation for duplex/townhome", "Appendix Q – Tiny Houses adopted"]⟩),
             ("IFC", ⟨some 2021, "adopted", "2022-01-01", ["Chapter 9: High-rise buildings >55ft: sprinklers required", "Sec 315: Combustible material storage in urban context"]⟩),
             ("NEC", ⟨some 2020, "adopted", "2021-06-01", ["Art. 230: Integrated solar service entrance requirements", "EV charging infrastructure: 20% of commercial parking EV-ready"]⟩),
             ("IECC", ⟨some 2021, "adopted", "2022-04-01", ["CZ 5B: Enhanced insulation values", "Commercial: Stretch Energy Code requires 20% better than IECC base"]⟩),
             ("IMC", ⟨some 2021, "adopted", "2022-01-01", []⟩),
             ("IPC", ⟨some 2021, "adopted", "2022-01-01", []⟩),
             ("IEBC", ⟨some 2021, "adopted", "2022-01-01", []⟩)],
          fireDistricts :=
            [{ name := "Denver Fire Department",
               adopted := [("IFC", ⟨some 2021, ["Downtown High-Rise Fire Safety Standards", "Cannabis cultivation facility: enhanced ventilation and fire suppression"]⟩)] }] }),
       ("Boulder",
        { type := "city",
          adopted :=
            [("IBC", ⟨some 2021, "adopted", "2023-01-01", ["SmartRegs rental housing standards", "Climate Commitment: all-electric new construction pathway"]⟩),
             ("IRC", ⟨some 2021, "adopted", "2023-01-01", ["Accessory Dwelling Units: streamlined permitting", "All-electric ready: EV charging conduit mandatory"]⟩),
             ("NEC", ⟨some 2020, "adopted", "2021-06-01", []⟩),
             ("IECC", ⟨some 2021, "adopted", "2023-01-01", ["Stretch code: 30% beyond IECC 2021 for commercial", "2030 District participant: embodied carbon tracking"]⟩),
             ("IFC", ⟨some 2021, "adopted", "2023-01-01", ["WUI requirements throughout western Boulder interface"]⟩)] })],
    counties :=
      [("Denver County",
        { type := "county",
          note := some "Denver is a consolidated city-county – same as City of Denver.",
          adopted := [] }),
       ("Jefferson County",
        { type := "county",
          adopted :=
            [("IBC", ⟨some 2021, "adopted", "2023-07-01", ["WUI Chapter 7A: wildfire provisions in unincorporated areas", "High Wind Zone: 115 mph Vult in mountain communities"]⟩),
             ("IRC", ⟨some 2021, "adopted", "2023-07-01", ["R327: Wildland-Urban Interface Construction"]⟩),
             ("NEC", ⟨some 2020, "adopted", "2021-06-01", []⟩),
             ("IFC", ⟨some 2021, "adopted", "2022-01-01", []⟩)] }),
       ("Arapahoe County",
        { type := "county",
          adopted :=
            [("IBC", ⟨some 2021, "adopted", "2023-01-01", []⟩),
             ("IRC", ⟨some 2021, "adopted", "2023-01-01", []⟩),
             ("NEC", ⟨some 2020, "adopted", "2021-06-01", []⟩)] })] }

def FL : Jurisdiction :=
  { name := "Florida", abbr := "FL", region := "Southeast",
    stateNote := "Florida Building Code (FBC) is mandatory statewide, updated every 3 years. Local amendments are very restricted – only modifications that are more stringent based on local conditions (climate, soils, etc.) are permitted with DBPR approval.",
    adopted :=
      [("IBC", ⟨some 2020, "adopted", "2021-01-01", ["FBC 7th Ed. (2020): based on 2018 IBC with extensive Florida amendments", "Floating structures Chapter 36: boat docks and seawall provisions", "Miami-Dade High Velocity Hurricane Zone (HVHZ) provisions", "Wind Speed Maps: Florida-specific per ASCE 7-16", "Section 1604: importance factor modifications for hurricane-prone regions", "Product Approval system (HVHZ impact windows/doors)"]⟩),
       ("IRC", ⟨some 2020, "adopted", "2021-01-01", ["FBC Residential 7th Ed.", "R301: Wind design per Florida High Wind Region", "Section 3-17 Hurricane-resistant construction"]⟩),
       ("NEC", ⟨some 2020, "adopted", "2021-01-01", ["Art. 230: Service entrance flood elevation requirements", "Art. 690: PV systems – Florida solar ready provisions"]⟩),
       ("IFC", ⟨some 2020, "adopted", "2021-01-01", ["FBC Fire Chapter based on IFC 2018"]⟩),
       ("IECC", ⟨some 2020, "adopted", "2021-01-01", ["CZ 1-2: Florida energy amendments", "Duct leakage testing mandatory", "Blower door test mandatory for new residential"]⟩),
       ("IPC", ⟨some 2020, "adopted", "2021-01-01", []⟩),
       ("IMC", ⟨some 2020, "adopted", "2021-01-01", ["Hurricane-rated equipment requirements"]⟩)],
    cities :=
      [("Miami",
        { type := "city",
          adopted :=
            [("IBC", ⟨some 2020, "adopted", "2021-01-01", ["HVHZ provisions: all exterior components must have NOA (Notice of Acceptance)", "Miami 21 zoning: transect-based building form standards", "Resiliency requirements: flood elevation +1ft above BFE", "Green Building: LEED Silver or equivalent for new commercial"]⟩),
             ("IRC", ⟨some 2020, "adopted", "2021-01-01", ["Hurricane shutters: mandatory for all openings in HVHZ", "R301.2: 185 mph Vult in HVHZ"]⟩),
             ("NEC", ⟨some 2020, "adopted", "2021-01-01", ["Art. 230: Service above flood elevation AE+2ft"]⟩),
             ("IFC", ⟨some 2020, "adopted", "2021-01-01", []⟩)] }),
       ("Orlando",
        { type := "city",
          adopted :=
            [("IBC", ⟨some 2020, "adopted", "2021-01-01", ["Theme park and entertainment: special occupancy provisions", "Hotels and high-rise: enhanced fire protection requirements"]⟩),
             ("NEC", ⟨some 2020, "adopted", "2021-01-01", []⟩),
             ("IFC", ⟨some 2020, "adopted", "2021-01-01", ["Assembly: enhanced crowd management provisions for entertainment venues"]⟩)] })],
    counties :=
      [("Miami-Dade County",
        { type := "county",
          adopted :=
            [("IBC", ⟨some 2020, "adopted", "2021-01-01", ["HVHZ product approval system", "185 mph Vult design wind speed", "Enhanced flood provisions: countywide FEMA CLOMR requirements"]⟩),
             ("NEC", ⟨some 2020, "adopted", "2021-01-01", []⟩),
             ("IFC", ⟨some 2020, "adopted", "2021-01-01", []⟩)] }),
       ("Broward County",
        { type := "county",
          adopted :=
            [("IBC", ⟨some 2020, "adopted", "2021-01-01", ["Wind: 160-170 mph Vult at coast"]⟩),
             ("NEC", ⟨some 2020, "adopted", "2021-01-01", []⟩)] })] }

def IL : Jurisdiction :=
  { name := "Illinois", abbr := "IL", region := "Midwest",
    stateNote := "Illinois has no mandatory statewide building code for local governments. Chicago and Cook County adopt independently. OSFM (Office of State Fire Marshal) adopts IFC statewide. State Plumbing Code mandatory. Capital Development Board uses IBC for state buildings.",
    adopted :=
      [("IFC", ⟨some 2018, "adopted", "2020-01-01", ["Illinois Fire Prevention Code based on NFPA 1 and IFC"]⟩),
       ("NEC", ⟨some 2020, "adopted", "2022-01-01", []⟩),
       ("IPC", ⟨some 2018, "adopted", "2019-01-01", ["Illinois Plumbing Code: statewide mandatory"]⟩)],
    cities :=
      [("Chicago",
        { type := "city",
          adopted :=
            [("IBC", ⟨none, "own-code", "Ongoing", ["Chicago Building Code (CBC): proprietary code based loosely on 2015 IBC", "Title 14B: Chicago Building Code (2019 update)", "Energy: Chicago Energy Transformation Code (2023)", "Accessibility: enhanced Chapter 11", "High-rise: buildings >80ft have extensive supplemental requirements", "Masonry: extensive Chicago masonry construction appendix"]⟩),
             ("NEC", ⟨some 2020, "adopted", "2022-01-01", ["Chicago Electrical Code supplements NEC", "Commercial: City conduit (rigid metal conduit) requirements in loop"]⟩),
             ("IFC", ⟨some 2018, "adopted", "2020-01-01", ["Chicago Fire Prevention Code: proprietary provisions", "High-rise: CFD-specific requirements above 80ft"]⟩),
             ("IPC", ⟨some 2018, "adopted", "2019-01-01", ["Chicago Plumbing Code: supplements state code"]⟩),
             ("IECC", ⟨some 2021, "adopted", "2023-01-01", ["Chicago Energy Transformation Code: 90% better performance target by 2030", "Building benchmarking mandatory >50k sqft"]⟩)] }),
       ("Springfield",
        { type := "city",
          adopted :=
            [("IBC", ⟨some 2018, "adopted", "2020-01-01", []⟩),
             ("NEC", ⟨some 2020, "adopted", "2022-01-01", []⟩),
             ("IFC", ⟨some 2018, "adopted", "2020-01-01", []⟩)] })],
    counties :=
      [("Cook County",
        { type := "county",
          adopted :=
            [("IBC", ⟨some 2018, "adopted", "2020-01-01", ["Cook County Building Code: supplements IBC for unincorporated areas"]⟩),
             ("NEC", ⟨some 2020, "adopted", "2022-01-01", []⟩),
             ("IFC", ⟨some 2018, "adopted", "2020-01-01", []⟩)] })] }

def NY : Jurisdiction :=
  { name := "New York", abbr := "NY", region := "Northeast",
    stateNote := "New York has mandatory statewide building code (NYSBC) for all buildings except New York City. NYC has its own building code. NYSBC is based on IBC but with extensive New York-specific amendments managed by DOS/DFS.",
    adopted :=
      [("IBC", ⟨some 2020, "adopted", "2022-01-01", ["NYSBC 2020: based on 2018 IBC with NYSBC amendments", "Appendix N: Manufactured Buildings", "Chapter 17: Special Inspection – enhanced NY requirements", "Seismic: NYC/Westchester enhanced provisions separate from NYSBC"]⟩),
       ("IRC", ⟨some 2020, "adopted", "2022-01-01", ["NYSRC 2020: based on 2018 IRC"]⟩),
       ("NEC", ⟨some 2020, "adopted", "2022-01-01", ["NYSEC: New York State Electrical Code supplements NEC 2020"]⟩),
       ("IFC", ⟨some 2020, "adopted", "2022-01-01", ["NYSFC: based on IFC 2018"]⟩),
       ("IECC", ⟨some 2020, "adopted", "2022-01-01", ["NYSECC 2020: enhanced beyond IECC", "CZ 4A-6A: heating design", "Stretch code provisions available"]⟩)],
    cities :=
      [("New York City",
        { type := "city",
          adopted :=
            [("IBC", ⟨none, "own-code", "2022-01-01", ["NYC Building Code 2022 (BC 2022): proprietary code, not NYSBC", "Based on 2015 IBC + extensive NYC amendments spanning all 35 chapters", "Chapter 7: High-Rise Construction – prescriptive requirements above 420ft", "Chapter 8: Super-Tall: 1000ft+ provisions", "Local Law 97 (Climate Mobilization Act): carbon emissions caps 2024+", "Local Law 126: Periodic Facade Inspection & Safety Program (FISP)", "Zoning: FAR and height limits via NYC Zoning Resolution"]⟩),
             ("NEC", ⟨some 2020, "adopted", "2022-01-01", ["NYC Electrical Code: supplements NEC 2020", "Commercial: BMS/EMS integration requirements"]⟩),
             ("IFC", ⟨none, "own-code", "2022-01-01", ["NYC Fire Code 2022: proprietary, not NYSFC", "Enhanced high-rise provisions", "Local Law 5: Sprinkler retrofit program"]⟩),
             ("IECC", ⟨some 2020, "adopted", "2022-01-01", ["NYC Energy Conservation Code", "Local Law 97: mandatory carbon intensity targets", "Benchmarking: LL84 mandatory for all >25k sqft"]⟩),
             ("IPC", ⟨none, "own-code", "2022-01-01", ["NYC Plumbing Code 2022"]⟩),
             ("IMC", ⟨none, "own-code", "2022-01-01", ["NYC Mechanical Code 2022"]⟩)] }),
       ("Buffalo",
        { type := "city",
          adopted :=
            [("IBC", ⟨some 2020, "adopted", "2022-01-01", ["NYSBC 2020 applies; minimal local amendments", "Snow load: 40 psf ground snow"]⟩),
             ("NEC", ⟨some 2020, "adopted", "2022-01-01", []⟩),
             ("IFC", ⟨some 2020, "adopted", "2022-01-01", []⟩)] })],
    counties :=
      [("Westchester County",
        { type := "county",
          adopted :=
            [("IBC", ⟨some 2020, "adopted", "2022-01-01", ["NYSBC + Westchester amendments", "Seismic: enhanced provisions due to proximity to Ramapo Fault"]⟩),
             ("NEC", ⟨some 2020, "adopted", "2022-01-01", []⟩)] })] }

def TX : Jurisdiction :=
  { name := "Texas", abbr := "TX", region := "South-Central",
    stateNote := "Texas has no mandatory statewide building code for commercial buildings. State law allows municipalities to adopt codes. TSDHS adopts IFC via state. TDLR enforces accessibility (TAS) statewide. State Plumbing Board. TECL licenses electricians per NEC.",
    adopted :=
      [("NEC", ⟨some 2020, "adopted", "2021-09-01", ["Texas TECL: licensure based on NEC 2020"]⟩),
       ("IFC", ⟨some 2021, "adopted", "2022-08-01", ["Texas Fire Code: based on IFC 2021"]⟩)],
    cities :=
      [("Houston",
        { type := "city",
          note := some "Notable: Houston has no citywide zoning ordinance.",
          adopted :=
            [("IBC", ⟨some 2015, "adopted", "2017-01-01", ["Houston amendments: Chapter 10 Mechanical (local)", "Flood: minimum FFE requirements per Harris County Flood Control", "Wind: 120 mph Vult"]⟩),
             ("IRC", ⟨some 2015, "adopted", "2017-01-01", ["R301.2.4 Wind: 120 mph Vult for Zone II/III"]⟩),
             ("NEC", ⟨some 2017, "adopted", "2019-01-01", []⟩),
             ("IFC", ⟨some 2021, "adopted", "2022-08-01", []⟩),
             ("IECC", ⟨some 2015, "adopted", "2017-01-01", ["CZ 2A: Commercial energy code"]⟩)] }),
       ("Dallas",
        { type := "city",
          adopted :=
            [("IBC", ⟨some 2021, "adopted", "2023-01-01", ["Dallas amendments: extensive via Dallas Development Code", "High-rise: enhanced fire protection Chapter 403", "Seismic: SDC A, minor amendments"]⟩),
             ("IRC", ⟨some 2021, "adopted", "2023-01-01", []⟩),
             ("NEC", ⟨some 2020, "adopted", "2022-01-01", []⟩),
             ("IFC", ⟨some 2021, "adopted", "2022-08-01", []⟩),
             ("IECC", ⟨some 2021, "adopted", "2023-01-01", ["CZ 3A: enhanced insulation requirements"]⟩)] }),
       ("Austin",
        { type := "city",
          adopted :=
            [("IBC", ⟨some 2021, "adopted", "2022-07-01", ["Austin Amendments: Title 25 Land Development Code integration", "Austin Energy Green Building standards: 1-5 star program", "Seismic: minimal (SDC A)"]⟩),
             ("IRC", ⟨some 2021, "adopted", "2022-07-01", ["ADU (Accessory Dwelling Unit) provisions expanded"]⟩),
             ("NEC", ⟨some 2020, "adopted", "2021-09-01", ["EV charging: 20% EV-ready for new commercial parking"]⟩),
             ("IFC", ⟨some 2021, "adopted", "2022-08-01", []⟩),
             ("IECC", ⟨some 2021, "adopted", "2022-07-01", ["Austin Energy Green Building program: enhanced beyond IECC"]⟩)] }),
       ("San Antonio",
        { type := "city",
          adopted :=
            [("IBC", ⟨some 2021, "adopted", "2023-01-01", []⟩),
             ("IRC", ⟨some 2021, "adopted", "2023-01-01", []⟩),
             ("NEC", ⟨some 2020, "adopted", "2022-01-01", []⟩),
             ("IFC", ⟨some 2021, "adopted", "2022-08-01", []⟩)] })],
    counties :=
      [("Harris County",
        { type := "county",
          note := some "Unincorporated areas only.",
          adopted :=
            [("IBC", ⟨some 2015, "adopted", "2017-01-01", ["Flood: Harris County Flood Control District minimum FFE +2ft above 500-yr BFE"]⟩),
             ("NEC", ⟨some 2017, "adopted", "2019-01-01", []⟩)] }),
       ("Travis County",
        { type := "county",
          adopted :=
            [("IBC", ⟨some 2021, "adopted", "2023-01-01", []⟩),
             ("NEC", ⟨some 2020, "adopted", "2021-09-01", []⟩)] })] }

def WA : Jurisdiction :=
  { name := "Washington", abbr := "WA", region := "Pacific Northwest",
    stateNote := "Washington State Building Code Council (SBCC) adopts mandatory statewide codes including WSBC (based on IBC), WSRC (based on IRC), WSEC, WSFC, and WSSPC. Local amendments require state filing.",
    adopted :=
      [("IBC", ⟨some 2021, "adopted", "2023-03-15", ["Washington State Building Code (2021): based on IBC 2021", "Seismic: SDC C-D throughout I-5 corridor", "Snow loads: amended per WA climate zones", "Section 1707: special inspections enhanced"]⟩),
       ("IRC", ⟨some 2021, "adopted", "2023-03-15", ["Washington State Residential Code 2021", "Climate Zone 4C-5B provisions", "Earthquake-resistant design requirements"]⟩),
       ("NEC", ⟨some 2020, "adopted", "2023-03-15", ["Washington NEC amendments: administered by L&I"]⟩),
       ("IFC", ⟨some 2021, "adopted", "2023-03-15", ["Washington State Fire Code (WSFC) 2021"]⟩),
       ("WSEC", ⟨some 2021, "adopted", "2023-03-15", ["Washington State Energy Code: advanced over IECC 2021", "EV charging: mandatory commercial provisions", "All-electric ready for new construction (2023)"]⟩)],
    cities :=
      [("Seattle",
        { type := "city",
          adopted :=
            [("IBC", ⟨some 2021, "adopted", "2023-03-15", ["Seattle Building Code: WSBC + Seattle amendments (SMC 22.100)", "Seismic: enhanced SDC D provisions", "Section 3108: communication towers", "Mandatory seismic retrofit: URM buildings", "Green Building: Seattle SMC Mandatory Targets per RES Policy"]⟩),
             ("IRC", ⟨some 2021, "adopted", "2023-03-15", ["Seattle Residential Code: WSRC + Seattle amendments"]⟩),
             ("NEC", ⟨some 2020, "adopted", "2023-03-15", ["Seattle Electrical Code: enhanced EV charging", "20% of commercial spaces EV-ready"]⟩),
             ("IFC", ⟨some 2021, "adopted", "2023-03-15", ["Seattle Fire Code: enhanced high-rise provisions", "Chapter 38: Cannabis business fire safety provisions"]⟩),
             ("WSEC", ⟨some 2021, "adopted", "2023-03-15", ["Seattle Reach Code: all-electric new construction", "Zero net carbon pathway encouraged", "Benchmarking: BO 117 mandatory for >20k sqft"]⟩),
             ("IMC", ⟨some 2021, "adopted", "2023-03-15", ["Seattle Mechanical Code: heat pump requirements"]⟩)],
          fireDistricts :=
            [{ name := "Seattle Fire Marshal",
               adopted := [("IFC", ⟨some 2021, ["High-rise: enhanced provisions above 75ft", "Cannabis: Tier 1-3 extraction facility requirements", "Emergency Responder Radio Coverage NFPA 1221"]⟩)] }] }),
       ("Spokane",
        { type := "city",
          adopted :=
            [("IBC", ⟨some 2021, "adopted", "2023-03-15", ["Snow load: 25 psf min for Spokane valley"]⟩),
             ("NEC", ⟨some 2020, "adopted", "2023-03-15", []⟩),
             ("WSEC", ⟨some 2021, "adopted", "2023-03-15", []⟩)] })],
    counties :=
      [("King County",
        { type := "county",
          note := some "Unincorporated areas only.",
          adopted :=
            [("IBC", ⟨some 2021, "adopted", "2023-03-15", ["King County Building Code: WSBC base", "Landslide hazard areas: Chapter 16 amendments"]⟩),
             ("WSEC", ⟨some 2021, "adopted", "2023-03-15", []⟩),
             ("NEC", ⟨some 2020, "adopted", "2023-03-15", []⟩)] })] }

def OR : Jurisdiction :=
  { name := "Oregon", abbr := "OR", region := "Pacific Northwest",
    stateNote := "Oregon BCD adopts and enforces statewide building codes. OSSC, ORRC, OECC. Local amendments limited.",
    adopted :=
      [("OSSC", ⟨some 2021, "adopted", "2023-01-01", ["Oregon Structural Specialty Code: based on 2021 IBC", "Seismic: SDC C-D-E along coast (Cascadia Subduction Zone)"]⟩),
       ("IFC", ⟨some 2021, "adopted", "2023-01-01", ["Oregon Fire Code: statewide mandatory"]⟩),
       ("NEC", ⟨some 2020, "adopted", "2022-01-01", []⟩),
       ("IECC", ⟨some 2021, "adopted", "2023-01-01", ["Oregon Energy Efficiency Specialty Code: enhanced for CZ 4C-5C"]⟩)],
    cities :=
      [("Portland",
        { type := "city",
          adopted :=
            [("OSSC", ⟨some 2021, "adopted", "2023-01-01", ["Portland Zoning Code Title 33: use overlays affecting building code", "Climate Emergency: 2030 all-electric requirement", "Seismic: soft-story retrofit program ongoing"]⟩),
             ("NEC", ⟨some 2020, "adopted", "2022-01-01", []⟩),
             ("IFC", ⟨some 2021, "adopted", "2023-01-01", []⟩),
             ("IECC", ⟨some 2021, "adopted", "2023-01-01", ["Portland reach code: all-electric new construction pathway per ADM-13.04.020"]⟩)] })],
    counties := [] }

def VA : Jurisdiction :=
  { name := "Virginia", abbr := "VA", region := "Mid-Atlantic",
    stateNote := "Virginia Uniform Statewide Building Code (USBC) is mandatory. DHCD enforces. Based on 2018 IBC with VA amendments. Local amendments are not permitted.",
    adopted :=
      [("IBC", ⟨some 2018, "adopted", "2021-10-01", ["VUSBC (Virginia Uniform Statewide Building Code Part I: Construction)", "Based on 2018 IBC", "Seismic: SDC A-B throughout most of state; C near Richmond/DC corridor"]⟩),
       ("IRC", ⟨some 2018, "adopted", "2021-10-01", ["VUSBC Part II: Residential"]⟩),
       ("NEC", ⟨some 2017, "adopted", "2018-01-01", ["DPOR administers electrical licensing per NEC 2017"]⟩),
       ("IFC", ⟨some 2018, "adopted", "2021-10-01", ["Virginia Statewide Fire Prevention Code"]⟩),
       ("IECC", ⟨some 2018, "adopted", "2021-10-01", ["VECC (Virginia Energy Conservation Code): based on IECC 2018", "CZ 4A for northern VA; CZ 3A south"]⟩)],
    cities := [],
    counties := [] }

def GA : Jurisdiction :=
  { name := "Georgia", abbr := "GA", region := "Southeast",
    stateNote := "Georgia DCA adopts statewide mandatory codes. Local amendments allowed with DCA review.",
    adopted :=
      [("IBC", ⟨some 2018, "adopted", "2020-01-01", ["Georgia State Minimum Standard Building Code: based on IBC 2018", "Chapter 17: enhanced special inspection requirements"]⟩),
       ("IRC", ⟨some 2018, "adopted", "2020-01-01", []⟩),
       ("NEC", ⟨some 2020, "adopted", "2021-01-01", []⟩),
       ("IFC", ⟨some 2018, "adopted", "2020-01-01", []⟩),
       ("IECC", ⟨some 2015, "adopted", "2016-01-01", ["CZ 2A-4A: Georgia amendments"]⟩)],
    cities :=
      [("Atlanta",
        { type := "city",
          adopted :=
            [("IBC", ⟨some 2018, "adopted", "2020-01-01", ["Atlanta amendments: enhanced historic preservation requirements", "Transit-oriented development zones: enhanced ADU provisions"]⟩),
             ("NEC", ⟨some 2020, "adopted", "2021-01-01", []⟩),
             ("IFC", ⟨some 2018, "adopted", "2020-01-01", []⟩),
             ("IECC", ⟨some 2015, "adopted", "2016-01-01", ["Atlanta Better Buildings Challenge: voluntary stretch targets"]⟩)] })],
    counties :=
      [("Fulton County",
        { type := "county",
          adopted :=
            [("IBC", ⟨some 2018, "adopted", "2020-01-01", []⟩),
             ("NEC", ⟨some 2020, "adopted", "2021-01-01", []⟩)] })] }

def MA : Jurisdiction :=
  { name := "Massachusetts", abbr := "MA", region := "Northeast",
    stateNote := "Massachusetts adopts the Massachusetts State Building Code (780 CMR) statewide. Based on 2009 IBC with MA amendments – updating to 2015 IBC basis in 9th edition. BBRS administers.",
    adopted :=
      [("IBC", ⟨some 2015, "adopted", "2020-01-01", ["780 CMR 9th Edition: based on 2015 IBC", "Seismic: SDC B-C in eastern MA", "Section 1101: MA accessibility enhanced (521 CMR)", "780 CMR Chapter 36: Stretch Energy Code available"]⟩),
       ("IRC", ⟨some 2015, "adopted", "2020-01-01", ["780 CMR Appendix AA: Two Family dwellings"]⟩),
       ("NEC", ⟨some 2020, "adopted", "2021-01-01", ["527 CMR 12.00: Massachusetts Electrical Code based on NEC 2020"]⟩),
       ("IFC", ⟨some 2015, "adopted", "2020-01-01", ["527 CMR 1.00: Massachusetts Fire Prevention Regulations"]⟩),
       ("IECC", ⟨some 2018, "adopted", "2020-01-01", ["Base: 780 CMR Appendix AB Energy Code", "Stretch Code: 780 CMR 115.AA – 20% better required in many municipalities", "Specialized Code: enhanced (opt-in)"]⟩)],
    cities :=
      [("Boston",
        { type := "city",
          adopted :=
            [("IBC", ⟨some 2015, "adopted", "2020-01-01", ["Boston Zoning Code and Groundwater Conservation Overlay supplement", "Resilience: BBP Sea Level Rise+3ft minimum FFE", "LEED Gold required for new construction >50k sqft per IDP"]⟩),
             ("NEC", ⟨some 2020, "adopted", "2021-01-01", []⟩),
             ("IFC", ⟨some 2015, "adopted", "2020-01-01", ["Boston Fire Prevention Code: BFD amendments"]⟩),
             ("IECC", ⟨some 2018, "adopted", "2020-01-01", ["Boston Stretch Code mandatory", "BERDO: building emissions reduction + disclosure ordinance applies >35k sqft"]⟩)] })],
    counties := [] }

def HI : Jurisdiction :=
  { name := "Hawaii", abbr := "HI", region := "Pacific",
    stateNote := "State building code based on IBC 2015.",
    adopted :=
      [("IBC", ⟨some 2015, "adopted", "2016-01-01", ["Hawaii State Building Code: IBC 2015 basis", "High Wind: 110-130 mph Vult throughout", "Tsunami hazard zone: enhanced coastal requirements"]⟩),
       ("NEC", ⟨some 2020, "adopted", "2022-01-01", []⟩),
       ("IFC", ⟨some 2015, "adopted", "2016-01-01", []⟩)],
    cities := [], counties := [] }

def ID : Jurisdiction :=
  { name := "Idaho", abbr := "ID", region := "Mountain",
    stateNote := "No mandatory statewide building code. IFC adopted statewide.",
    adopted :=
      [("IFC", ⟨some 2018, "adopted", "2020-01-01", []⟩),
       ("NEC", ⟨some 2020, "adopted", "2022-01-01", []⟩)],
    cities :=
      [("Boise",
        { type := "city",
          adopted :=
            [("IBC", ⟨some 2018, "adopted", "2021-01-01", ["WUI provisions for bench/foothills areas"]⟩),
             ("NEC", ⟨some 2020, "adopted", "2022-01-01", []⟩),
             ("IFC", ⟨some 2018, "adopted", "2021-01-01", []⟩)] })],
    counties := [] }

def MN : Jurisdiction :=
  { name := "Minnesota", abbr := "MN", region := "Midwest",
    stateNote := "MN DLI administers Minnesota Building Code (MBC): based on IBC 2015. Statewide mandatory.",
    adopted :=
      [("IBC", ⟨some 2015, "adopted", "2020-03-31", ["MBC 2020: based on IBC 2015 with MN amendments", "Chapter 1301: state amendments throughout", "1341: Minnesota Accessibility Code – exceeds ADA"]⟩),
       ("IRC", ⟨some 2015, "adopted", "2020-03-31", []⟩),
       ("NEC", ⟨some 2020, "adopted", "2020-06-01", []⟩),
       ("IFC", ⟨some 2015, "adopted", "2020-03-31", []⟩),
       ("IECC", ⟨some 2015, "adopted", "2020-03-31", ["MN Energy Code: CZ 6-7 enhanced requirements"]⟩)],
    cities :=
      [("Minneapolis",
        { type := "city",
          adopted :=
            [("IBC", ⟨some 2015, "adopted", "2020-03-31", ["Minneapolis amendments: Chapter 6 local", "Green Building Policy: LEED Silver >50k sqft"]⟩),
             ("NEC", ⟨some 2020, "adopted", "2020-06-01", []⟩),
             ("IFC", ⟨some 2015, "adopted", "2020-03-31", []⟩)] })],
    counties := [] }

def OH : Jurisdiction :=
  { name := "Ohio", abbr := "OH", region := "Midwest",
    stateNote := "Ohio BBS administers Ohio Building Code (OBC) statewide. Based on IBC 2017.",
    adopted :=
      [("IBC", ⟨some 2017, "adopted", "2017-11-01", ["OBC: based on IBC 2017 with Ohio amendments", "Section 4101:1 OBC fire and life safety"]⟩),
       ("NEC", ⟨some 2017, "adopted", "2018-01-01", []⟩),
       ("IFC", ⟨some 2017, "adopted", "2017-11-01", []⟩),
       ("IECC", ⟨some 2017, "adopted", "2017-11-01", []⟩)],
    cities :=
      [("Columbus",
        { type := "city",
          adopted :=
            [("IBC", ⟨some 2017, "adopted", "2017-11-01", []⟩),
             ("NEC", ⟨some 2017, "adopted", "2018-01-01", []⟩),
             ("IFC", ⟨some 2017, "adopted", "2017-11-01", []⟩)] }),
       ("Cleveland",
        { type := "city",
          adopted :=
            [("IBC", ⟨some 2017, "adopted", "2017-11-01", ["Cleveland amendments: historic district provisions", "Lake Erie waterfront setback requirements"]⟩),
             ("NEC", ⟨some 2017, "adopted", "2018-01-01", []⟩)] })],
    counties := [] }

def PA : Jurisdiction :=
  { name := "Pennsylvania", abbr := "PA", region := "Mid-Atlantic",
    stateNote := "PA UCC (Uniform Construction Code) is mandatory statewide except for first class cities (Philadelphia). Based on IBC 2018.",
    adopted :=
      [("IBC", ⟨some 2018, "adopted", "2022-10-01", ["PA UCC: 2018 IBC basis", "Radon: Chapter 11 PA mandatory radon-resistant construction"]⟩),
       ("IRC", ⟨some 2018, "adopted", "2022-10-01", ["Radon: Appendix F mandatory"]⟩),
       ("NEC", ⟨some 2017, "adopted", "2019-01-01", []⟩),
       ("IFC", ⟨some 2018, "adopted", "2022-10-01", []⟩),
       ("IECC", ⟨some 2018, "adopted", "2022-10-01", []⟩)],
    cities :=
      [("Philadelphia",
        { type := "city",
          adopted :=
            [("IBC", ⟨none, "own-code", "2022-01-01", ["Philadelphia Building Construction and Occupancy Code: based on IBC 2018 with PhilaCode amendments", "Title 4 Philadelphia Code: local amendments throughout", "Energy: Philly Energy Campaign stretch code pathway"]⟩),
             ("NEC", ⟨some 2017, "adopted", "2019-01-01", []⟩),
             ("IFC", ⟨some 2018, "adopted", "2022-01-01", ["Philadelphia Fire Code: enhanced provisions"]⟩)] })],
    counties := [] }

/-- The hand-authored jurisdiction dataset in definition (insertion) order. -/
def JURISDICTIONS₀ : List (String × Jurisdiction) :=
  [("AL", AL), ("AK", AK), ("AZ", AZ), ("CA", CA), ("CO", CO), ("FL", FL),
   ("IL", IL), ("NY", NY), ("TX", TX), ("WA", WA), ("OR", OR), ("VA", VA),
   ("GA", GA), ("MA", MA), ("HI", HI), ("ID", ID), ("MN", MN), ("OH", OH),
   ("PA", PA)]

/-! ### Fallback stub pass (`src/js/fallback-states.js`) -/

/-- The list of `{abbr, name}` pairs of states to back-fill (`ALL_STATES`). -/
def ALL_STATES : List (String × String) :=
  [("AR", "Arkansas"), ("CT", "Connecticut"), ("DE", "Delaware"), ("IA", "Iowa"),
   ("IN", "Indiana"), ("KS", "Kansas"), ("KY", "Kentucky"), ("LA", "Louisiana"),
   ("ME", "Maine"), ("MD", "Maryland"), ("MI", "Michigan"), ("MS", "Mississippi"),
   ("MO", "Missouri"), ("MT", "Montana"), ("NE", "Nebraska"), ("NV", "Nevada"),
   ("NH", "New Hampshire"), ("NJ", "New Jersey"), ("NM", "New Mexico"),
   ("NC", "North Carolina"), ("ND", "North Dakota"), ("OK", "Oklahoma"),
   ("RI", "Rhode Island"), ("SC", "South Carolina"), ("SD", "South Dakota"),
   ("TN", "Tennessee"), ("UT", "Utah"), ("VT", "Vermont"), ("WV", "West Virginia"),
   ("WI", "Wisconsin"), ("WY", "Wyoming")]

/-- The minimal stub entry installed for a missing state. -/
def fallbackStub (abbr name : String) : Jurisdiction :=
  { name := name, abbr := abbr, region := "—",
    stateNote := "Contact your local building department for current adopted codes. Data pending detailed research.",
    adopted :=
      [("IBC", ⟨some 2018, "adopted", "Varies", ["Contact local AHJ for specific amendments"]⟩),
       ("NEC", ⟨some 2020, "adopted", "Varies", []⟩)],
    cities := [], counties := [] }

/-- The fallback pass: for each entry of `ALL_STATES`, add a stub only when no
jurisdiction with that code exists (`if (!JURISDICTIONS[s.abbr]) { ... }`);
object assignment appends the new key in insertion order. -/
def applyFallback (db : List (String × Jurisdiction)) : List (String × Jurisdiction) :=
  ALL_STATES.foldl
    (fun db s => if (db.lookup s.1).isSome then db else db ++ [(s.1, fallbackStub s.1 s.2)])
    db

/-- The complete jurisdiction store after the fallback pass has run. -/
def JURISDICTIONS : List (String × Jurisdiction) := applyFallback JURISDICTIONS₀

/-! ### Search / autocomplete (`buildSuggestions`) -/

/-- One autocomplete entry, as pushed by `buildSuggestions`. -/
structure Suggestion where
  label : String
  sub : String
  type : String
  state : String
  city : Option String
  county : Option String
deriving DecidableEq, Repr

/-- Raw comma-separated pieces of the query after per-piece trimming and
zip-code stripping:
`query.split(',').map(p => p.trim().replace(/\s+\d{5}(-\d{4})?$/, '').trim())`. -/
def rawParts (q : String) : List String :=
  (jsSplit ',' q.data).map tokenOfPart

/-- Surviving search terms:
`[...new Set(rawParts)].filter(p => p.length >= 2)`. -/
def searchTerms (q : String) : List String :=
  (dedupFirst (rawParts q)).filter (fun p => 2 ≤ p.length)

/-- Accumulator state of the search loop: the result list so far and the set of
seen identity keys. -/
abbrev SearchAcc := List Suggestion × List String

/-- Guarded push: `if (!seen.has(key)) { seen.add(key); results.push(s); }`. -/
def pushIfNew (acc : SearchAcc) (key : String) (s : Suggestion) : SearchAcc :=
  if key ∈ acc.2 then acc else (acc.1 ++ [s], key :: acc.2)

/-- Body of the per-state iteration of `buildSuggestions` for one lowercased
term `t`: test the state name/abbreviation, then every city, then every
county. -/
def scanJurisdiction (t : String) (acc : SearchAcc) (st : Jurisdiction) : SearchAcc :=
  let acc :=
    if jsIncludes (jsToLower st.name) t || (jsToLower st.abbr == t) then
      pushIfNew acc ("state:" ++ st.abbr)
        { label := st.name, sub := st.abbr, type := "STATE", state := st.abbr,
          city := none, county := none }
    else acc
  let acc := st.cities.foldl
    (fun acc c =>
      if jsIncludes (jsToLower c.1) t then
        pushIfNew acc ("city:" ++ st.abbr ++ ":" ++ c.1)
          { label := c.1, sub := st.name, type := "CITY", state := st.abbr,
            city := some c.1, county := none }
      else acc) acc
  st.counties.foldl
    (fun acc c =>
      if jsIncludes (jsToLower c.1) t then
        pushIfNew acc ("county:" ++ st.abbr ++ ":" ++ c.1)
          { label := c.1, sub := st.name, type := "COUNTY", state := st.abbr,
            city := none, county := some c.1 }
      else acc) acc

/-- The search/autocomplete function `buildSuggestions(query)`. -/
def buildSuggestions (q : String) : List Suggestion :=
  if q.length < 2 then []
  else
    let terms := searchTerms q
    let acc := terms.foldl
      (fun acc term =>
        let t := jsToLower term
        (JURISDICTIONS.map Prod.snd).foldl (fun acc st => scanJurisdiction t acc st) acc)
      (([], []) : SearchAcc)
    acc.1.take 8

/-! ### Report composition (`showReport` and helpers) -/

/-- Result of the JavaScript object spread `{...a, ...b}` on association
lists: keys of `a` in order with values overridden by `b` where present,
followed by the keys of `b` not present in `a`, in order. -/
def objMerge (a b : List (String × CodeAdoption)) : List (String × CodeAdoption) :=
  a.map (fun p => match b.lookup p.1 with | some v => (p.1, v) | none => p)
  ++ b.filter (fun q => (a.lookup q.1).isNone)

/-- Source resolution inside `renderCodeCard`: map the code key through
`CODE_SOURCES` and `DATA_SOURCES` to a URL, but for `IECC` prefer the
per-state DOE BECP URL when a state abbreviation is available
(`if (key === 'IECC' && stateAbbr && DATA_SOURCES.becp.stateUrl)`). -/
def resolveCardSourceUrl (key : String) (stateAbbr : String) : Option String :=
  let sourceDef := (CODE_SOURCES.lookup key).bind fun sk => DATA_SOURCES.lookup sk
  let sourceUrl := sourceDef.map (fun src => src.url)
  if key == "IECC" && stateAbbr != "" && becp.stateUrl.isSome then
    becp.stateUrl.map (fun f => f stateAbbr)
  else sourceUrl

/-- One row of the data-sources footer. -/
structure SourceRow where
  key : String
  url : String
  relevantCodes : List String
deriving DecidableEq, Repr

/-- Structured content of the data-sources footer: the needed source keys in
insertion order, and the rendered rows. -/
structure SourcesPanel where
  sources : List String
  rows : List SourceRow
deriving DecidableEq, Repr

/-- Model of `neededSources.add(k)` on an insertion-ordered set. -/
def addNeeded (ns : List String) (k : String) : List String :=
  if k ∈ ns then ns else ns ++ [k]

/-- The set of needed source keys collected by `buildSourcesPanel`: the mapped
source of every code in view, `becp` whenever `IECC` is present, `icc_chart`
whenever any ICC code is present, and `municode` for local views. -/
def neededSources (isLocal : Bool) (adoptedCodes : List (String × CodeAdoption)) :
    List String :=
  let ns := adoptedCodes.foldl
    (fun ns ck =>
      let ns := match CODE_SOURCES.lookup ck.1 with
        | some sk => addNeeded ns sk
        | none => ns
      if ck.1 == "IECC" then addNeeded ns "becp" else ns)
    []
  let hasIccCode := adoptedCodes.any (fun ck => icc_chart.codes.contains ck.1)
  let ns := if hasIccCode then addNeeded ns "icc_chart" else ns
  if isLocal then addNeeded ns "municode" else ns

/-- The data-sources footer `buildSourcesPanel(state, isLocal, adoptedCodes)`.
For the `becp` row the per-state deep link is used when the state has an
abbreviation. -/
def buildSourcesPanel (state : Jurisdiction) (isLocal : Bool)
    (adoptedCodes : List (String × CodeAdoption)) : SourcesPanel :=
  let ns := neededSources isLocal adoptedCodes
  let rows := ns.filterMap fun sk =>
    match DATA_SOURCES.lookup sk with
    | none => none
    | some src =>
      let url := match src.stateUrl with
        | some f => if sk == "becp" && state.abbr != "" then f state.abbr else src.url
        | none => src.url
      let relevantCodes := (adoptedCodes.map Prod.fst).filter (fun k => src.codes.contains k)
      some { key := sk, url := url, relevantCodes := relevantCodes }
  { sources := ns, rows := rows }

/-- The structured report assembled by `showReport`. -/
structure Report where
  isLocal : Bool
  breadcrumb : List String
  displayName : String
  jType : String
  region : String
  codeCount : Nat
  amendCount : Nat
  note : Option String
  fireDistricts : List FireDistrict
  hasMajorAmendments : Bool
  adoptedCodes : List (String × CodeAdoption)
  cardSourceUrls : List (String × Option String)
  inheritedCodes : List (String × CodeAdoption)
  sources : SourcesPanel
deriving DecidableEq, Repr

/-- Model of `showReport(state, local, localName)`.  A `null` third argument is
modelled as the empty string (both are falsy in `local && localName`); the
`local` record is dereferenced only under `isLocal`. -/
def showReport (state : Jurisdiction) (localRec : Option LocalRecord)
    (localName : String) : Report :=
  let isLocal := localRec.isSome && localName != ""
  let loc := localRec.getD { type := "", adopted := [] }
  let adoptedCodes := if isLocal then loc.adopted else state.adopted
  let codeCount := adoptedCodes.length
  let amendCount : Nat := adoptedCodes.foldl (fun sum c => sum + c.2.amendments.length) 0
  let note := if isLocal then loc.note else none
  let fireDistricts := if isLocal then loc.fireDistricts else []
  let jType := if isLocal then jsUpper (jsOr loc.type "municipality") else "STATE"
  let hasMajorAmendments := decide (3 < amendCount)
  let allAdoptedForSources := if isLocal then objMerge state.adopted loc.adopted else adoptedCodes
  { isLocal := isLocal,
    breadcrumb := if isLocal then ["US", state.name, localName] else ["US", state.name],
    displayName := if isLocal then localName else state.name,
    jType := jType,
    region := state.region,
    codeCount := codeCount,
    amendCount := amendCount,
    note := note,
    fireDistricts := fireDistricts,
    hasMajorAmendments := hasMajorAmendments,
    adoptedCodes := adoptedCodes,
    cardSourceUrls := adoptedCodes.map (fun kv => (kv.1, resolveCardSourceUrl kv.1 state.abbr)),
    inheritedCodes := if isLocal && state.adopted.length > 0 then state.adopted else [],
    sources := buildSourcesPanel state isLocal allAdoptedForSources }

/-- Kind of a local reference, distinguishing the two sub-maps. -/
inductive LocalKind where
  | city
  | county
deriving DecidableEq, Repr

/-- The map of a state selected by a local kind. -/
def localMap (st : Jurisdiction) : LocalKind → List (String × LocalRecord)
  | .city => st.cities
  | .county => st.counties

/-- Failure of report composition.  `typeError` models the JavaScript
`TypeError` thrown when `showReport` dereferences the `undefined` returned by
`JURISDICTIONS[code]` for an unknown state code. -/
inductive ComposeError where
  | typeError
deriving DecidableEq, Repr

/-- Report composition as performed at the call sites (`selectSuggestion`,
tree clicks): look up the state in `JURISDICTIONS`, then call `showReport`
with `state.cities[name]` or `state.counties[name]` for a local reference,
or with `(null, null)` for a state-level request. -/
def composeReport (code : String) (localRef : Option (LocalKind × String)) :
    Except ComposeError Report :=
  match JURISDICTIONS.lookup code with
  | none => .error .typeError
  | some st =>
    match localRef with
    | none => .ok (showReport st none "")
    | some (k, name) => .ok (showReport st ((localMap st k).lookup name) name)

/-- The browse-order state list:
`Object.values(JURISDICTIONS).sort((a,b) => a.name.localeCompare(b.name))`.
The locale-aware comparator is a parameter; JavaScript `Array.prototype.sort`
with a consistent comparator is modelled by a stable merge sort. -/
def statesSorted (lc : String → String → Int) : List Jurisdiction :=
  (JURISDICTIONS.map Prod.snd).mergeSort (fun a b => decide (lc a.name b.name ≤ 0))

/-! ### Helper lemmas -/

/-- Claim-side total amendment count: the sum of the amendment-list lengths
across the records of a `CodeAdoption` mapping. -/
def amendTotal (m : List (String × CodeAdoption)) : Nat :=
  (m.map (fun kv => kv.2.amendments.length)).sum

theorem foldl_amendTotal (l : List (String × CodeAdoption)) (n : Nat) :
    l.foldl (fun sum c => sum + c.2.amendments.length) n = n + amendTotal l := by
  induction l generalizing n with
  | nil => simp [amendTotal]
  | cons a t ih => simp [amendTotal, ih]; omega

theorem bne_empty_of_ne {s : String} (h : s ≠ "") : (s != "") = true := by
  simp [bne, h]

/-! ### Claims -/

/-- C1: for every scope — a state with a null local reference, or a state plus
a local record — the composed report's adopted-codes count equals the number
of entries in the active scope's `CodeAdoption` mapping, and its total
amendment count equals the sum of the amendment-list lengths over the records
of that same mapping (the local mapping when local, the state mapping when
state-level). -/
theorem c1_scope_counts (st : Jurisdiction) (loc : LocalRecord) (name : String)
    (h : name ≠ "") :
    ((showReport st none "").codeCount = st.adopted.length ∧
     (showReport st none "").amendCount = amendTotal st.adopted) ∧
    ((showReport st (some loc) name).codeCount = loc.adopted.length ∧
     (showReport st (some loc) name).amendCount = amendTotal loc.adopted) := by
  have hb := bne_empty_of_ne h
  refine ⟨⟨rfl, ?_⟩, ⟨?_, ?_⟩⟩
  · show st.adopted.foldl _ 0 = _
    rw [foldl_amendTotal]; omega
  · simp [showReport, hb]
  · simp [showReport, hb, foldl_amendTotal]

/-- Witness for C1 at the concrete scopes Arizona (state level) and
Phoenix, AZ (city level). -/
theorem c1_scope_counts_witness :
    (("Phoenix" : String) ≠ "") ∧
    (((showReport AZ none "").codeCount = AZ.adopted.length ∧
      (showReport AZ none "").amendCount = amendTotal AZ.adopted) ∧
     ((showReport AZ (some AZ_Phoenix) "Phoenix").codeCount = AZ_Phoenix.adopted.length ∧
      (showReport AZ (some AZ_Phoenix) "Phoenix").amendCount = amendTotal AZ_Phoenix.adopted)) :=
  ⟨by decide, c1_scope_counts AZ AZ_Phoenix "Phoenix" (by decide)⟩

/-- C3: for every input string, the suggestion list returned by the search
function has length at most 8. -/
theorem c3_suggestions_capped (q : String) : (buildSuggestions q).length ≤ 8 := by
  unfold buildSuggestions
  split
  · simp
  · simp [List.length_take_le]

/-- C4: for every scope, the report's "has major amendments" flag is true
exactly when the total amendment count is strictly greater than 3; in
particular an amendment count of exactly 3 yields `false`. -/
theorem c4_major_amendments (st : Jurisdiction) (locRec : Option LocalRecord)
    (name : String) :
    ((showReport st locRec name).hasMajorAmendments = true ↔
      3 < (showReport st locRec name).amendCount) ∧
    ((showReport st locRec name).amendCount = 3 →
      (showReport st locRec name).hasMajorAmendments = false) := by
  constructor
  · show decide _ = true ↔ _
    exact decide_eq_true_iff
  · intro h3
    show decide (3 < (showReport st locRec name).amendCount) = false
    rw [h3]
    rfl

/-- Witness for C4 at the boundary: Alabama's state scope has exactly 3
recorded amendments and the major-amendments flag is off. -/
theorem c4_major_amendments_witness :
    (showReport AL none "").amendCount = 3 ∧
    (showReport AL none "").hasMajorAmendments = false :=
  ⟨by decide, (c4_major_amendments AL none "").2 (by decide)⟩

/-- C2 counterexample: "Atlantis" is not a city of the known state Alabama,
yet report composition does not fail — it silently produces exactly the
state-level report for Alabama (because `state.cities[name]` is `undefined`
and `local && localName` is then falsy), contradicting the claim that an
unknown local name within a known state signals NotFound rather than
producing a report. -/
theorem c2_counterexample :
    (JURISDICTIONS.lookup "AL").isSome = true ∧
    AL.cities.lookup "Atlantis" = none ∧
    composeReport "AL" (some (LocalKind.city, "Atlantis")) = composeReport "AL" none := by
  refine ⟨rfl, rfl, rfl⟩

/-- C2 amended: a request naming an unknown state code fails with a runtime
error (no report is produced), and failure is distinguishable from any
successfully composed report, including one whose `CodeAdoption` mapping is
empty; but a request naming an unknown local name within a known state does
not signal NotFound — it silently composes the state-level report for that
state. -/
theorem c2_unknown_scope_behaviour :
    (∀ code localRef, JURISDICTIONS.lookup code = none →
      composeReport code localRef = .error .typeError) ∧
    (∀ r : Report, (Except.error ComposeError.typeError : Except ComposeError Report) ≠ .ok r) ∧
    (∀ code st k name, JURISDICTIONS.lookup code = some st →
      (localMap st k).lookup name = none →
      composeReport code (some (k, name)) = composeReport code none) := by
  refine ⟨?_, ?_, ?_⟩
  · intro code localRef hnone
    simp [composeReport, hnone]
  · intro r h
    exact Except.noConfusion h
  · intro code st k name hst hloc
    simp only [composeReport, hst, hloc]
    rfl

/-- Witness for C2 (amended): the unknown state code "ZZ" fails, and the
unknown county name "Atlantis" under Alabama composes the Alabama state-level
report. -/
theorem c2_unknown_scope_behaviour_witness :
    composeReport "ZZ" none = .error .typeError ∧
    composeReport "AL" (some (LocalKind.county, "Atlantis")) = composeReport "AL" none :=
  ⟨c2_unknown_scope_behaviour.1 "ZZ" none (by rfl),
   c2_unknown_scope_behaviour.2.2 "AL" AL LocalKind.county "Atlantis" (by rfl) (by rfl)⟩

/-! ### C10: fallback stub generation -/

theorem fallbackFold_preserves (l : List (String × String))
    (db : List (String × Jurisdiction)) (k : String) (v : Jurisdiction)
    (h : db.lookup k = some v) :
    (l.foldl (fun db s => if (db.lookup s.1).isSome then db
                          else db ++ [(s.1, fallbackStub s.1 s.2)]) db).lookup k = some v := by
  induction l generalizing db with
  | nil => simpa using h
  | cons s t ih =>
    simp only [List.foldl_cons]
    split
    · exact ih db h
    · apply ih
      rw [List.lookup_append, h]
      rfl

theorem fallbackFold_adds (ab nm : String) :
    ∀ (l : List (String × String)) (db : List (String × Jurisdiction)),
      (l.map Prod.fst).Nodup → (ab, nm) ∈ l → db.lookup ab = none →
      (l.foldl (fun db s => if (db.lookup s.1).isSome then db
                            else db ++ [(s.1, fallbackStub s.1 s.2)]) db).lookup ab
        = some (fallbackStub ab nm) := by
  intro l
  induction l with
  | nil => intro db _ hmem _; simp at hmem
  | cons s t ih =>
    intro db hnd hmem habs
    simp only [List.map_cons, List.nodup_cons] at hnd
    rcases List.mem_cons.mp hmem with heq | htail
    · cases heq
      simp only [List.foldl_cons, habs, Option.isSome_none, Bool.false_eq_true, if_false]
      apply fallbackFold_preserves
      rw [List.lookup_append, habs]
      simp [List.lookup]
    · have hab : s.1 ≠ ab := by
        intro hcontra
        exact hnd.1 (hcontra ▸ List.mem_map_of_mem Prod.fst htail)
      simp only [List.foldl_cons]
      split
      · exact ih db hnd.2 htail habs
      · apply ih _ hnd.2 htail
        rw [List.lookup_append, habs]
        have hbe : (ab == s.1) = false := beq_eq_false_iff_ne.mpr (Ne.symm hab)
        simp [List.lookup, hbe]

/-- C10: the fallback pass adds a minimal stub entry — generic note, IBC 2018
and NEC 2020 adoptions, empty city and county maps — for a state abbreviation
only when no entry with that code exists, and leaves every pre-existing entry
unchanged, so detailed data is never overwritten. -/
theorem c10_fallback_frame (db : List (String × Jurisdiction)) :
    (∀ k v, db.lookup k = some v → (applyFallback db).lookup k = some v) ∧
    (∀ ab nm, (ab, nm) ∈ ALL_STATES → db.lookup ab = none →
      (applyFallback db).lookup ab = some (fallbackStub ab nm)) ∧
    (∀ ab nm, (fallbackStub ab nm).adopted =
        [("IBC", ⟨some 2018, "adopted", "Varies", ["Contact local AHJ for specific amendments"]⟩),
         ("NEC", ⟨some 2020, "adopted", "Varies", []⟩)] ∧
      (fallbackStub ab nm).cities = [] ∧ (fallbackStub ab nm).counties = []) := by
  refine ⟨?_, ?_, ?_⟩
  · intro k v h
    exact fallbackFold_preserves ALL_STATES db k v h
  · intro ab nm hmem habs
    exact fallbackFold_adds ab nm ALL_STATES db (by decide) hmem habs
  · intro ab nm
    exact ⟨rfl, rfl, rfl⟩

/-- Witness for C10: starting from a store holding only Arizona, the fallback
pass leaves Arizona untouched and installs the Arkansas stub. -/
theorem c10_fallback_frame_witness :
    (applyFallback [("AZ", AZ)]).lookup "AZ" = some AZ ∧
    (applyFallback [("AZ", AZ)]).lookup "AR" = some (fallbackStub "AR" "Arkansas") :=
  ⟨(c10_fallback_frame [("AZ", AZ)]).1 "AZ" AZ (by rfl),
   (c10_fallback_frame [("AZ", AZ)]).2.1 "AR" "Arkansas" (by decide) (by rfl)⟩

/-! ### C8: the browse-order state list -/

/-- Display names of the states in the store are pairwise distinct. -/
theorem jurisdiction_names_nodup :
    ((JURISDICTIONS.map Prod.snd).map (fun j => j.name)).Nodup := by decide

/-- C8: for any consistent locale comparator that equates only equal strings,
the browse-order state list is sorted ascending by display name (so the
tie-break-by-code clause holds vacuously: every adjacent pair compares
strictly), and re-invoking the operation on the unmodified store yields an
identical sequence. -/
theorem c8_all_states_sorted (lc : String → String → Int)
    (htrans : ∀ a b c, lc a b ≤ 0 → lc b c ≤ 0 → lc a c ≤ 0)
    (htotal : ∀ a b, lc a b ≤ 0 ∨ lc b a ≤ 0)
    (hsep : ∀ a b, lc a b = 0 → a = b) :
    (statesSorted lc).Pairwise
      (fun a b => lc a.name b.name < 0 ∨ (lc a.name b.name = 0 ∧ a.abbr ≤ b.abbr)) ∧
    statesSorted lc = statesSorted lc := by
  refine ⟨?_, rfl⟩
  have hsorted := @List.sorted_mergeSort Jurisdiction
    (fun a b : Jurisdiction => decide (lc a.name b.name ≤ 0))
    (fun a b c hab hbc => by
      simp only [decide_eq_true_iff] at hab hbc ⊢
      exact htrans _ _ _ hab hbc)
    (fun a b => by
      rcases htotal a.name b.name with h | h <;> simp [h])
    (JURISDICTIONS.map Prod.snd)
  have hperm := List.mergeSort_perm (JURISDICTIONS.map Prod.snd)
    (fun a b : Jurisdiction => decide (lc a.name b.name ≤ 0))
  have hnodup : ((statesSorted lc).map (fun j => j.name)).Nodup :=
    ((hperm.map (fun j => j.name)).nodup_iff).mpr jurisdiction_names_nodup
  have hne : (statesSorted lc).Pairwise (fun a b => a.name ≠ b.name) :=
    (List.pairwise_map).mp hnodup
  have hboth := (hsorted.and hne)
  refine hboth.imp ?_
  rintro a b ⟨hle, hneq⟩
  left
  have hle' : lc a.name b.name ≤ 0 := by
    have := hle
    simpa using this
  rcases lt_or_eq_of_le hle' with hlt | heq
  · exact hlt
  · exact absurd (hsep _ _ heq) hneq

/-- Codepoint-wise string comparator used to witness C8. -/
def lcStd : String → String → Int :=
  fun s t => if s < t then -1 else if t < s then 1 else 0

theorem lcStd_le_iff (s t : String) : lcStd s t ≤ 0 ↔ s ≤ t := by
  unfold lcStd
  split_ifs with h1 h2
  · simp [le_of_lt h1]
  · constructor
    · intro h; omega
    · intro h; exact absurd h (not_le.mpr h2)
  · simp [le_of_not_lt h2]

theorem lcStd_eq_zero (s t : String) (h : lcStd s t = 0) : s = t := by
  unfold lcStd at h
  split_ifs at h with h1 h2
  · exact absurd h (by norm_num)
  · exact le_antisymm (le_of_not_lt h2) (le_of_not_lt h1)

/-- Witness for C8 with the codepoint-wise comparator. -/
theorem c8_all_states_sorted_witness :
    (statesSorted lcStd).Pairwise
      (fun a b => lcStd a.name b.name < 0 ∨ (lcStd a.name b.name = 0 ∧ a.abbr ≤ b.abbr)) ∧
    statesSorted lcStd = statesSorted lcStd :=
  c8_all_states_sorted lcStd
    (fun a b c hab hbc =>
      (lcStd_le_iff a c).mpr (le_trans ((lcStd_le_iff a b).mp hab) ((lcStd_le_iff b c).mp hbc)))
    (fun a b => by
      rcases le_total a b with h | h
      · exact Or.inl ((lcStd_le_iff a b).mpr h)
      · exact Or.inr ((lcStd_le_iff b a).mpr h))
    lcStd_eq_zero

/-! ### Tokenizer lemmas (for C6 and C7) -/

theorem trimChars_length_le (l : List Char) : (trimChars l).length ≤ l.length := by
  unfold trimChars
  calc ((l.dropWhile isWs).reverse.dropWhile isWs).reverse.length
      = ((l.dropWhile isWs).reverse.dropWhile isWs).length := by simp
    _ ≤ (l.dropWhile isWs).reverse.length := (List.dropWhile_sublist isWs).length_le
    _ = (l.dropWhile isWs).length := by simp
    _ ≤ l.length := (List.dropWhile_sublist isWs).length_le

theorem trimChars_decomp (l : List Char) :
    ∃ a b, l = a ++ trimChars l ++ b ∧
      (∀ c ∈ a, isWs c = true) ∧ (∀ c ∈ b, isWs c = true) := by
  refine ⟨l.takeWhile isWs, ((l.dropWhile isWs).reverse.takeWhile isWs).reverse, ?_, ?_, ?_⟩
  · have h1 := List.takeWhile_append_dropWhile isWs (l.dropWhile isWs).reverse
    have hd : l.dropWhile isWs
        = trimChars l ++ ((l.dropWhile isWs).reverse.takeWhile isWs).reverse := by
      calc l.dropWhile isWs
          = ((l.dropWhile isWs).reverse).reverse := by rw [List.reverse_reverse]
        _ = (((l.dropWhile isWs).reverse.takeWhile isWs)
              ++ ((l.dropWhile isWs).reverse.dropWhile isWs)).reverse := by rw [h1]
        _ = ((l.dropWhile isWs).reverse.dropWhile isWs).reverse
              ++ ((l.dropWhile isWs).reverse.takeWhile isWs).reverse := by
            rw [List.reverse_append]
        _ = trimChars l ++ ((l.dropWhile isWs).reverse.takeWhile isWs).reverse := rfl
    conv_lhs => rw [← List.takeWhile_append_dropWhile isWs l, hd]
    rw [List.append_assoc]
  · intro c hc
    exact List.mem_takeWhile_imp hc
  · intro c hc
    rw [List.mem_reverse] at hc
    exact List.mem_takeWhile_imp hc

theorem trimChars_eq_nil (l : List Char) (h : ∀ c ∈ l, isWs c = true) :
    trimChars l = [] := by
  unfold trimChars
  rw [show l.dropWhile isWs = [] from List.dropWhile_eq_nil_iff.mpr h]
  rfl

theorem dropDigits_length_le : ∀ (n : Nat) (l r : List Char),
    dropDigits n l = some r → r.length ≤ l.length := by
  intro n
  induction n with
  | zero =>
    intro l r h
    simp only [dropDigits, Option.some.injEq] at h
    subst h
    exact le_refl _
  | succ m ih =>
    intro l r h
    match l with
    | [] => simp [dropDigits] at h
    | c :: t =>
      simp only [dropDigits] at h
      split at h
      · have := ih t r h
        simp only [List.length_cons]
        omega
      · simp at h

theorem stripZipCore_length_le (r r2 : List Char)
    (h : stripZipCore r = some r2) : r2.length ≤ r.length := by
  unfold stripZipCore at h
  split at h
  case h_1 c rest heq =>
    split at h
    · simp only [Option.some.injEq] at h
      subst h
      have h1 : (c :: rest).length ≤ r.length := dropDigits_length_le 5 r _ heq
      have h2 : ((c :: rest).dropWhile isWs).length ≤ (c :: rest).length :=
        (List.dropWhile_sublist isWs).length_le
      omega
    · simp at h
  case h_2 => simp at h

theorem stripZipRev_length_le (r : List Char) : (stripZipRev r).length ≤ r.length := by
  unfold stripZipRev
  split
  case h_1 rest heq =>
    split
    case h_1 r2 heq2 =>
      have h1 := dropDigits_length_le 4 r _ heq
      simp only [List.length_cons] at h1
      have h2 := stripZipCore_length_le rest r2 heq2
      omega
    case h_2 => exact le_refl _
  case h_2 =>
    split
    case h_1 r2 heq2 => exact stripZipCore_length_le r r2 heq2
    case h_2 => exact le_refl _

theorem tokenOfPart_length_le (p : List Char) :
    (tokenOfPart p).length ≤ (trimChars p).length := by
  show (trimChars ((stripZipRev (trimChars p).reverse).reverse)).length ≤ _
  calc (trimChars ((stripZipRev (trimChars p).reverse).reverse)).length
      ≤ (stripZipRev (trimChars p).reverse).reverse.length := trimChars_length_le _
    _ = (stripZipRev (trimChars p).reverse).length := by simp
    _ ≤ (trimChars p).reverse.length := stripZipRev_length_le _
    _ = (trimChars p).length := by simp

theorem jsSplit_of_not_mem (sep : Char) (l : List Char) (h : sep ∉ l) :
    jsSplit sep l = [l] := by
  induction l with
  | nil => rfl
  | cons c t ih =>
    have hc : (c == sep) = false := by
      simp only [beq_eq_false_iff_ne]
      intro hcontra
      exact h (hcontra ▸ List.mem_cons_self c t)
    have ht : sep ∉ t := fun hmem => h (List.mem_cons_of_mem c hmem)
    simp only [jsSplit, hc, Bool.false_eq_true, if_false, ih ht]

theorem jsSplit_append (sep : Char) (a b : List Char) (ha : sep ∉ a) :
    jsSplit sep (a ++ sep :: b) = a :: jsSplit sep b := by
  induction a with
  | nil => simp [jsSplit]
  | cons c t ih =>
    have hc : (c == sep) = false := by
      simp only [beq_eq_false_iff_ne]
      intro hcontra
      exact ha (hcontra ▸ List.mem_cons_self c t)
    have ht : sep ∉ t := fun hmem => ha (List.mem_cons_of_mem c hmem)
    simp only [List.cons_append, jsSplit, hc, Bool.false_eq_true, if_false]
    simp only [List.append_eq]
    rw [ih ht]

theorem mem_dedupFirstAux [DecidableEq α] (x : α) :
    ∀ (l seen : List α), x ∈ dedupFirstAux l seen → x ∈ l := by
  intro l
  induction l with
  | nil => intro seen h; simp [dedupFirstAux] at h
  | cons a t ih =>
    intro seen h
    simp only [dedupFirstAux] at h
    split at h
    · exact List.mem_cons_of_mem a (ih seen h)
    · rcases List.mem_cons.mp h with heq | htail
      · exact heq ▸ List.mem_cons_self a t
      · exact List.mem_cons_of_mem a (ih _ htail)

theorem isWs_comma : isWs ',' = false := by decide

/-- Every token produced from a query whose trimmed form is shorter than two
characters is itself shorter than two characters. -/
theorem not_isWs_comma (x : List Char) (hx : ∀ c ∈ x, isWs c = true)
    (hmem : ',' ∈ x) : False := by
  have := hx ',' hmem
  rw [isWs_comma] at this
  exact absurd this (by simp)

theorem tokens_short (q : String) (h : (trimChars q.data).length < 2) :
    ∀ p ∈ jsSplit ',' q.data, (tokenOfPart p).length < 2 := by
  intro p hp
  have hle := tokenOfPart_length_le p
  suffices hsmall : (trimChars p).length < 2 by omega
  obtain ⟨a, b, hdec, ha, hb⟩ := trimChars_decomp q.data
  have hcase : trimChars q.data = [] ∨ ∃ c, trimChars q.data = [c] := by
    match h2 : trimChars q.data with
    | [] => exact Or.inl rfl
    | [c] => exact Or.inr ⟨c, rfl⟩
    | c :: d :: t =>
      rw [h2] at h
      simp only [List.length_cons] at h
      omega
  rcases hcase with hnil | ⟨c, hone⟩
  · have hall : ∀ c ∈ q.data, isWs c = true := by
      intro c hc
      rw [hdec, hnil] at hc
      simp only [List.append_nil, List.mem_append] at hc
      rcases hc with hc | hc
      · exact ha c hc
      · exact hb c hc
    have hnc : ',' ∉ q.data := fun hmem => not_isWs_comma q.data hall hmem
    rw [jsSplit_of_not_mem ',' q.data hnc] at hp
    simp only [List.mem_singleton] at hp
    subst hp
    rw [trimChars_eq_nil _ hall]
    simp
  · rw [hone] at hdec
    by_cases hc : c = ','
    · subst hc
      have hsp : jsSplit ',' q.data = a :: jsSplit ',' b := by
        rw [hdec]
        have hx : a ++ [','] ++ b = a ++ ',' :: b := by simp
        rw [hx]
        exact jsSplit_append ',' a b (fun hmem => not_isWs_comma a ha hmem)
      have hspb : jsSplit ',' b = [b] :=
        jsSplit_of_not_mem ',' b (fun hmem => not_isWs_comma b hb hmem)
      rw [hsp, hspb] at hp
      rcases List.mem_cons.mp hp with hpq | hpb
      · rw [hpq, trimChars_eq_nil a ha]
        simp
      · simp only [List.mem_singleton] at hpb
        rw [hpb, trimChars_eq_nil b hb]
        simp
    · have hnc : ',' ∉ q.data := by
        rw [hdec]
        intro hmem
        simp only [List.mem_append, List.mem_singleton] at hmem
        rcases hmem with (hmem | hmem) | hmem
        · exact not_isWs_comma a ha hmem
        · exact hc hmem.symm
        · exact not_isWs_comma b hb hmem
      rw [jsSplit_of_not_mem ',' q.data hnc] at hp
      simp only [List.mem_singleton] at hp
      subst hp
      rw [hone]
      simp

/-- C6: for every input whose trimmed form is shorter than two characters, the
search function returns an empty result list (an empty value, not an error). -/
theorem c6_short_query_empty (q : String) (h : (jsTrim q).length < 2) :
    buildSuggestions q = [] := by
  have hterms : searchTerms q = [] := by
    unfold searchTerms
    rw [List.filter_eq_nil_iff]
    intro t ht
    have ht' : t ∈ rawParts q := mem_dedupFirstAux t _ _ ht
    unfold rawParts at ht'
    rw [List.mem_map] at ht'
    obtain ⟨p, hp, rfl⟩ := ht'
    have := tokens_short q h p hp
    simp only [decide_eq_true_eq]
    omega
  unfold buildSuggestions
  split
  · rfl
  · simp [hterms]

/-- Witness for C6: the input `" , "` trims to a single character and yields
no suggestions. -/
theorem c6_short_query_empty_witness :
    (jsTrim " , ").length < 2 ∧ buildSuggestions " , " = [] :=
  ⟨by decide, c6_short_query_empty " , " (by decide)⟩

/-! ### Search refinement (for C5 and C7)

A specification-side description of the search: candidate matches are
generated in discovery order — terms outermost; states in dataset definition
(insertion) order; within one state its state-name match, then its city
matches, then its county matches — and the final list keeps the first
occurrence of each identity key and is truncated to 8 entries. -/

/-- Candidate state-name/abbreviation match of one lowercased term against one
state, together with its identity key. -/
def stateCand (t : String) (st : Jurisdiction) : List (String × Suggestion) :=
  if jsIncludes (jsToLower st.name) t || (jsToLower st.abbr == t) then
    [("state:" ++ st.abbr,
      { label := st.name, sub := st.abbr, type := "STATE", state := st.abbr,
        city := none, county := none })]
  else []

/-- Candidate city matches of one lowercased term against one state. -/
def cityCands (t : String) (st : Jurisdiction) : List (String × Suggestion) :=
  st.cities.flatMap fun c =>
    if jsIncludes (jsToLower c.1) t then
      [("city:" ++ st.abbr ++ ":" ++ c.1,
        { label := c.1, sub := st.name, type := "CITY", state := st.abbr,
          city := some c.1, county := none })]
    else []

/-- Candidate county matches of one lowercased term against one state. -/
def countyCands (t : String) (st : Jurisdiction) : List (String × Suggestion) :=
  st.counties.flatMap fun c =>
    if jsIncludes (jsToLower c.1) t then
      [("county:" ++ st.abbr ++ ":" ++ c.1,
        { label := c.1, sub := st.name, type := "COUNTY", state := st.abbr,
          city := none, county := some c.1 })]
    else []

/-- All candidates of one lowercased term, over the states in insertion
order. -/
def termCands (t : String) : List (String × Suggestion) :=
  (JURISDICTIONS.map Prod.snd).flatMap fun st =>
    stateCand t st ++ cityCands t st ++ countyCands t st

/-- The full candidate list of a query in discovery order. -/
def cands (q : String) : List (String × Suggestion) :=
  (searchTerms q).flatMap fun term => termCands (jsToLower term)

/-- Keep the first occurrence of each identity key. -/
def dedupKeyed (seen : List String) : List (String × Suggestion) → List Suggestion
  | [] => []
  | (k, s) :: rest =>
    if k ∈ seen then dedupKeyed seen rest else s :: dedupKeyed (k :: seen) rest

/-- Seen-key set after processing a candidate list. -/
def seenAfter (seen : List String) : List (String × Suggestion) → List String
  | [] => seen
  | (k, _) :: rest =>
    if k ∈ seen then seenAfter seen rest else seenAfter (k :: seen) rest

/-- Specification-side description of the search result. -/
def suggestionsSpec (q : String) : List Suggestion :=
  if q.length < 2 then [] else (dedupKeyed [] (cands q)).take 8

theorem foldl_push_eq (l : List (String × Suggestion)) :
    ∀ (rs : List Suggestion) (seen : List String),
      l.foldl (fun acc ks => pushIfNew acc ks.1 ks.2) (rs, seen)
        = (rs ++ dedupKeyed seen l, seenAfter seen l) := by
  induction l with
  | nil => intro rs seen; simp [dedupKeyed, seenAfter]
  | cons ks rest ih =>
    intro rs seen
    obtain ⟨k, s⟩ := ks
    simp only [List.foldl_cons]
    have hstep : pushIfNew (rs, seen) k s
        = if k ∈ seen then (rs, seen) else (rs ++ [s], k :: seen) := rfl
    rw [hstep]
    by_cases hk : k ∈ seen
    · rw [if_pos hk, ih rs seen]
      simp [dedupKeyed, seenAfter, hk]
    · rw [if_neg hk, ih (rs ++ [s]) (k :: seen)]
      simp [dedupKeyed, seenAfter, hk]

theorem foldl_guard_eq {α : Type} (p : α → Bool) (mk : α → String × Suggestion) :
    ∀ (xs : List α) (acc : SearchAcc),
      xs.foldl (fun acc x => if p x then pushIfNew acc (mk x).1 (mk x).2 else acc) acc
        = (xs.flatMap fun x => if p x then [mk x] else []).foldl
            (fun acc ks => pushIfNew acc ks.1 ks.2) acc := by
  intro xs
  induction xs with
  | nil => intro acc; rfl
  | cons x t ih =>
    intro acc
    simp only [List.foldl_cons, List.flatMap_cons, List.foldl_append]
    cases hpx : p x
    · simp only [Bool.false_eq_true, if_false]
      exact ih acc
    · simp only [if_true]
      exact ih _

theorem scanJurisdiction_eq (t : String) (st : Jurisdiction) (acc : SearchAcc) :
    scanJurisdiction t acc st
      = (stateCand t st ++ cityCands t st ++ countyCands t st).foldl
          (fun acc ks => pushIfNew acc ks.1 ks.2) acc := by
  rw [List.foldl_append, List.foldl_append]
  have hs : (stateCand t st).foldl (fun acc ks => pushIfNew acc ks.1 ks.2) acc
      = if jsIncludes (jsToLower st.name) t || (jsToLower st.abbr == t) then
          pushIfNew acc ("state:" ++ st.abbr)
            { label := st.name, sub := st.abbr, type := "STATE", state := st.abbr,
              city := none, county := none }
        else acc := by
    unfold stateCand
    split <;> rfl
  rw [hs]
  have hcity : ∀ a : SearchAcc,
      (cityCands t st).foldl (fun acc ks => pushIfNew acc ks.1 ks.2) a
        = st.cities.foldl
            (fun acc c =>
              if jsIncludes (jsToLower c.1) t then
                pushIfNew acc ("city:" ++ st.abbr ++ ":" ++ c.1)
                  { label := c.1, sub := st.name, type := "CITY", state := st.abbr,
                    city := some c.1, county := none }
              else acc) a := by
    intro a
    exact (foldl_guard_eq (fun c => jsIncludes (jsToLower c.1) t)
      (fun c => ("city:" ++ st.abbr ++ ":" ++ c.1,
        { label := c.1, sub := st.name, type := "CITY", state := st.abbr,
          city := some c.1, county := none })) st.cities a).symm
  have hcounty : ∀ a : SearchAcc,
      (countyCands t st).foldl (fun acc ks => pushIfNew acc ks.1 ks.2) a
        = st.counties.foldl
            (fun acc c =>
              if jsIncludes (jsToLower c.1) t then
                pushIfNew acc ("county:" ++ st.abbr ++ ":" ++ c.1)
                  { label := c.1, sub := st.name, type := "COUNTY", state := st.abbr,
                    city := none, county := some c.1 }
              else acc) a := by
    intro a
    exact (foldl_guard_eq (fun c => jsIncludes (jsToLower c.1) t)
      (fun c => ("county:" ++ st.abbr ++ ":" ++ c.1,
        { label := c.1, sub := st.name, type := "COUNTY", state := st.abbr,
          city := none, county := some c.1 })) st.counties a).symm
  rw [hcity, hcounty]
  rfl

theorem statesFold_eq (t : String) (sts : List Jurisdiction) :
    ∀ (acc : SearchAcc),
      sts.foldl (fun acc st => scanJurisdiction t acc st) acc
        = (sts.flatMap fun st => stateCand t st ++ cityCands t st ++ countyCands t st).foldl
            (fun acc ks => pushIfNew acc ks.1 ks.2) acc := by
  induction sts with
  | nil => intro acc; rfl
  | cons st rest ih =>
    intro acc
    simp only [List.foldl_cons, List.flatMap_cons]
    rw [List.foldl_append]
    rw [scanJurisdiction_eq]
    exact ih _

theorem termsFold_eq (ts : List String) :
    ∀ (acc : SearchAcc),
      ts.foldl
        (fun acc term =>
          (JURISDICTIONS.map Prod.snd).foldl
            (fun acc st => scanJurisdiction (jsToLower term) acc st) acc) acc
        = (ts.flatMap fun term => termCands (jsToLower term)).foldl
            (fun acc ks => pushIfNew acc ks.1 ks.2) acc := by
  induction ts with
  | nil => intro acc; rfl
  | cons term rest ih =>
    intro acc
    simp only [List.foldl_cons, List.flatMap_cons]
    rw [List.foldl_append]
    rw [statesFold_eq]
    exact ih _

/-- The implemented search equals its specification-side description. -/
theorem buildSuggestions_eq_spec (q : String) :
    buildSuggestions q = suggestionsSpec q := by
  by_cases hq : q.length < 2
  · have h1 : buildSuggestions q = [] := by unfold buildSuggestions; rw [if_pos hq]
    have h2 : suggestionsSpec q = [] := by unfold suggestionsSpec; rw [if_pos hq]
    rw [h1, h2]
  · have h1 : buildSuggestions q
        = ((searchTerms q).foldl
            (fun acc term => (JURISDICTIONS.map Prod.snd).foldl
              (fun acc st => scanJurisdiction (jsToLower term) acc st) acc)
            (([], []) : SearchAcc)).1.take 8 := by
      unfold buildSuggestions
      rw [if_neg hq]
    have h2 : suggestionsSpec q = (dedupKeyed [] (cands q)).take 8 := by
      unfold suggestionsSpec
      rw [if_neg hq]
    rw [h1, h2, termsFold_eq (searchTerms q) ([], [])]
    rw [show ((searchTerms q).flatMap fun term => termCands (jsToLower term)) = cands q from rfl]
    rw [foldl_push_eq (cands q) [] []]
    simp

/-- Identity key of a suggestion: its match kind, state code, and local name
when present. -/
def mkKey (s : Suggestion) : String :=
  if s.type = "STATE" then "state:" ++ s.state
  else if s.type = "CITY" then "city:" ++ s.state ++ ":" ++ s.city.getD ""
  else "county:" ++ s.state ++ ":" ++ s.county.getD ""

/-- All searchable labels of the dataset: state display names and city/county
names. -/
def datasetLabels : List String :=
  (JURISDICTIONS.map Prod.snd).flatMap fun st =>
    st.name :: (st.cities.map Prod.fst ++ st.counties.map Prod.fst)

/-- Every candidate's stored key is its suggestion's identity key, and every
candidate's label is a name from the dataset. -/
theorem cands_props (q : String) :
    ∀ ks ∈ cands q, ks.1 = mkKey ks.2 ∧ ks.2.label ∈ datasetLabels := by
  intro ks hks
  unfold cands at hks
  rw [List.mem_flatMap] at hks
  obtain ⟨term, _, hks⟩ := hks
  unfold termCands at hks
  rw [List.mem_flatMap] at hks
  obtain ⟨st, hst, hks⟩ := hks
  rw [List.mem_append] at hks
  rcases hks with hks | hks
  · rw [List.mem_append] at hks
    rcases hks with hks | hks
    · unfold stateCand at hks
      split at hks
      · rw [List.mem_singleton] at hks
        subst hks
        refine ⟨rfl, ?_⟩
        unfold datasetLabels
        rw [List.mem_flatMap]
        exact ⟨st, hst, List.mem_cons_self _ _⟩
      · simp at hks
    · unfold cityCands at hks
      rw [List.mem_flatMap] at hks
      obtain ⟨c, hc, hks⟩ := hks
      split at hks
      · rw [List.mem_singleton] at hks
        subst hks
        refine ⟨rfl, ?_⟩
        unfold datasetLabels
        rw [List.mem_flatMap]
        refine ⟨st, hst, ?_⟩
        apply List.mem_cons_of_mem
        rw [List.mem_append]
        exact Or.inl (List.mem_map_of_mem Prod.fst hc)
      · simp at hks
  · unfold countyCands at hks
    rw [List.mem_flatMap] at hks
    obtain ⟨c, hc, hks⟩ := hks
    split at hks
    · rw [List.mem_singleton] at hks
      subst hks
      refine ⟨rfl, ?_⟩
      unfold datasetLabels
      rw [List.mem_flatMap]
      refine ⟨st, hst, ?_⟩
      apply List.mem_cons_of_mem
      rw [List.mem_append]
      exact Or.inr (List.mem_map_of_mem Prod.fst hc)
    · simp at hks

theorem mem_dedupKeyed_notin (x : Suggestion) :
    ∀ (l : List (String × Suggestion)) (seen : List String),
      (∀ ks ∈ l, ks.1 = mkKey ks.2) → x ∈ dedupKeyed seen l → mkKey x ∉ seen := by
  intro l
  induction l with
  | nil => intro seen _ hx; simp [dedupKeyed] at hx
  | cons ks rest ih =>
    intro seen hkey hx
    obtain ⟨k, s⟩ := ks
    have hk : k = mkKey s := hkey (k, s) (List.mem_cons_self _ _)
    have hkeyrest : ∀ a ∈ rest, a.1 = mkKey a.2 :=
      fun a ha => hkey a (List.mem_cons_of_mem _ ha)
    by_cases hk2 : k ∈ seen
    · simp only [dedupKeyed] at hx
      rw [if_pos hk2] at hx
      exact ih seen hkeyrest hx
    · simp only [dedupKeyed] at hx
      rw [if_neg hk2] at hx
      rcases List.mem_cons.mp hx with hxe | htail
      · rw [hxe, ← hk]
        exact hk2
      · intro hmem
        exact (ih (k :: seen) hkeyrest htail) (List.mem_cons_of_mem _ hmem)

theorem dedupKeyed_pairwise :
    ∀ (l : List (String × Suggestion)) (seen : List String),
      (∀ ks ∈ l, ks.1 = mkKey ks.2) →
      (dedupKeyed seen l).Pairwise (fun a b => mkKey a ≠ mkKey b) := by
  intro l
  induction l with
  | nil => intro seen _; simp [dedupKeyed]
  | cons ks rest ih =>
    intro seen hkey
    obtain ⟨k, s⟩ := ks
    have hk : k = mkKey s := hkey (k, s) (List.mem_cons_self _ _)
    have hkeyrest : ∀ a ∈ rest, a.1 = mkKey a.2 :=
      fun a ha => hkey a (List.mem_cons_of_mem _ ha)
    by_cases hk2 : k ∈ seen
    · simp only [dedupKeyed]
      rw [if_pos hk2]
      exact ih seen hkeyrest
    · simp only [dedupKeyed]
      rw [if_neg hk2]
      refine List.Pairwise.cons ?_ (ih (k :: seen) hkeyrest)
      intro b hb heq
      apply mem_dedupKeyed_notin b rest (k :: seen) hkeyrest hb
      rw [← heq, ← hk]
      exact List.mem_cons_self _ _

theorem mem_dedupKeyed (x : Suggestion) :
    ∀ (l : List (String × Suggestion)) (seen : List String),
      x ∈ dedupKeyed seen l → ∃ k, (k, x) ∈ l := by
  intro l
  induction l with
  | nil => intro seen hx; simp [dedupKeyed] at hx
  | cons ks rest ih =>
    intro seen hx
    obtain ⟨k, s⟩ := ks
    by_cases hk2 : k ∈ seen
    · simp only [dedupKeyed] at hx
      rw [if_pos hk2] at hx
      obtain ⟨k', hk'⟩ := ih seen hx
      exact ⟨k', List.mem_cons_of_mem _ hk'⟩
    · simp only [dedupKeyed] at hx
      rw [if_neg hk2] at hx
      rcases List.mem_cons.mp hx with hxe | htail
      · exact ⟨k, hxe ▸ List.mem_cons_self _ _⟩
      · obtain ⟨k', hk'⟩ := ih (k :: seen) htail
        exact ⟨k', List.mem_cons_of_mem _ hk'⟩

set_option maxRecDepth 20000 in
/-- C5 counterexample: for the query `"co"` the result list interleaves
city/county matches of earlier states with later states' name matches — the
STATE match for Colorado appears last, after seven city/county entries — so
the claim that all state-name matches are discovered before any city/county
match is false. -/
theorem c5_counterexample :
    (buildSuggestions "co").map (fun s => (s.type, s.label)) =
      [("COUNTY", "Jefferson County"), ("COUNTY", "Mobile County"),
       ("CITY", "Scottsdale"), ("COUNTY", "Maricopa County"),
       ("COUNTY", "Pima County"), ("CITY", "San Francisco"),
       ("COUNTY", "Los Angeles County"), ("STATE", "Colorado")] := by
  rfl

/-- C5 (amended): for every query the search result equals the
specification-side description `suggestionsSpec` — candidates generated with
terms outermost and states iterated in dataset definition (insertion) order,
each state's name match discovered before that same state's city matches and
then its county matches (but after earlier states' city/county matches),
de-duplicated by identity key with the first occurrence winning, then
truncated to 8 — and consequently no two returned entries share the identity
key (match kind, state code, local name if any). -/
theorem c5_search_order (q : String) :
    buildSuggestions q = suggestionsSpec q ∧
    (buildSuggestions q).Pairwise (fun a b =>
      ¬(a.type = b.type ∧ a.state = b.state ∧ a.city = b.city ∧ a.county = b.county)) := by
  refine ⟨buildSuggestions_eq_spec q, ?_⟩
  rw [buildSuggestions_eq_spec q]
  unfold suggestionsSpec
  split
  · simp
  · apply List.Pairwise.sublist (List.take_sublist 8 _)
    have hpw := dedupKeyed_pairwise (cands q) [] (fun ks hks => (cands_props q ks hks).1)
    refine hpw.imp ?_
    intro a b hne hquad
    apply hne
    obtain ⟨h1, h2, h3, h4⟩ := hquad
    unfold mkKey
    rw [h1, h2, h3, h4]

theorem dedupFirstAux_nodup [DecidableEq α] :
    ∀ (l seen : List α),
      (dedupFirstAux l seen).Nodup ∧ ∀ x ∈ dedupFirstAux l seen, x ∉ seen := by
  intro l
  induction l with
  | nil => intro seen; exact ⟨List.nodup_nil, by simp [dedupFirstAux]⟩
  | cons a t ih =>
    intro seen
    by_cases ha : a ∈ seen
    · simp only [dedupFirstAux]
      rw [if_pos ha]
      exact ih seen
    · simp only [dedupFirstAux]
      rw [if_neg ha]
      obtain ⟨hnd, hnotin⟩ := ih (a :: seen)
      constructor
      · rw [List.nodup_cons]
        exact ⟨fun hmem => (hnotin a hmem) (List.mem_cons_self _ _), hnd⟩
      · intro x hx
        rcases List.mem_cons.mp hx with hxe | hx'
        · exact hxe ▸ ha
        · exact fun hmem => (hnotin x hx') (List.mem_cons_of_mem _ hmem)

/-- C7: for every input string the surviving search terms are exactly the
comma-separated pieces processed by trim, zip-code strip, trim — de-duplicated
by exact string equality (so the term list has no duplicates) with every term
of length at least 2 — and every label in the returned suggestion list is a
name from the dataset, so a stripped zip-code suffix never appears in any
returned label. -/
theorem c7_tokenization (q : String) :
    (searchTerms q).Nodup ∧
    (∀ t ∈ searchTerms q, 2 ≤ t.length ∧ ∃ p ∈ jsSplit ',' q.data, t = tokenOfPart p) ∧
    (∀ s ∈ buildSuggestions q, s.label ∈ datasetLabels) := by
  refine ⟨(dedupFirstAux_nodup (rawParts q) []).1.filter _, ?_, ?_⟩
  · intro t ht
    unfold searchTerms at ht
    have h2 := List.of_mem_filter ht
    have hmem := List.mem_of_mem_filter ht
    constructor
    · simpa using h2
    · have hraw := mem_dedupFirstAux t _ _ hmem
      unfold rawParts at hraw
      rw [List.mem_map] at hraw
      obtain ⟨p, hp, heq⟩ := hraw
      exact ⟨p, hp, heq.symm⟩
  · intro s hs
    rw [buildSuggestions_eq_spec] at hs
    unfold suggestionsSpec at hs
    split at hs
    · simp at hs
    · have hs' := List.mem_of_mem_take hs
      obtain ⟨k, hk⟩ := mem_dedupKeyed s (cands q) [] hs'
      exact (cands_props q (k, s) hk).2

/-! ### C9: source attribution -/

theorem lookup_none_iff_not_mem_keys {β : Type} (l : List (String × β)) (k : String) :
    l.lookup k = none ↔ k ∉ l.map Prod.fst := by
  rw [List.lookup_eq_none_iff]
  constructor
  · intro h hmem
    rw [List.mem_map] at hmem
    obtain ⟨p, hp, heq⟩ := hmem
    have hbne := h p hp
    rw [bne_iff_ne] at hbne
    exact hbne heq.symm
  · intro h p hp
    rw [bne_iff_ne]
    intro hk
    exact h (hk ▸ List.mem_map_of_mem Prod.fst hp)

theorem objMerge_keys (a b : List (String × CodeAdoption)) (k : String) :
    k ∈ (objMerge a b).map Prod.fst ↔
      (k ∈ a.map Prod.fst ∨ k ∈ b.map Prod.fst) := by
  unfold objMerge
  rw [List.map_append, List.mem_append]
  have hfst : (a.map (fun p => match b.lookup p.1 with
      | some v => (p.1, v) | none => p)).map Prod.fst = a.map Prod.fst := by
    rw [List.map_map]
    apply List.map_congr_left
    intro p _
    simp only [Function.comp]
    split <;> rfl
  rw [hfst]
  constructor
  · rintro (h | h)
    · exact Or.inl h
    · right
      rw [List.mem_map] at h
      obtain ⟨p, hp, rfl⟩ := h
      exact List.mem_map_of_mem Prod.fst (List.mem_of_mem_filter hp)
  · rintro (h | h)
    · exact Or.inl h
    · by_cases hka : k ∈ a.map Prod.fst
      · exact Or.inl hka
      · right
        rw [List.mem_map] at h
        obtain ⟨p, hp, rfl⟩ := h
        rw [List.mem_map]
        refine ⟨p, ?_, rfl⟩
        rw [List.mem_filter]
        refine ⟨hp, ?_⟩
        rw [(lookup_none_iff_not_mem_keys a p.1).mpr hka]
        rfl

theorem mem_addNeeded_self (ns : List String) (k : String) : k ∈ addNeeded ns k := by
  unfold addNeeded
  split
  · assumption
  · simp

theorem municode_mem_needed (m : List (String × CodeAdoption)) :
    "municode" ∈ neededSources true m := by
  show "municode" ∈ addNeeded _ "municode"
  exact mem_addNeeded_self _ _

theorem becp_row_urls (state : Jurisdiction) (isLocal : Bool)
    (m : List (String × CodeAdoption)) (habbr : state.abbr ≠ "") :
    ((buildSourcesPanel state isLocal m).rows.all
      (fun row => row.key != "becp" || (row.url == becpStateUrl state.abbr))) = true := by
  have habbr' : (state.abbr != "") = true := bne_empty_of_ne habbr
  rw [List.all_eq_true]
  intro row hrow
  have hrow' : row ∈ (neededSources isLocal m).filterMap (fun sk =>
      match DATA_SOURCES.lookup sk with
      | none => none
      | some src =>
        let url := match src.stateUrl with
          | some f => if sk == "becp" && state.abbr != "" then f state.abbr else src.url
          | none => src.url
        let relevantCodes := (m.map Prod.fst).filter (fun k => src.codes.contains k)
        some { key := sk, url := url, relevantCodes := relevantCodes }) := hrow
  rw [List.mem_filterMap] at hrow'
  obtain ⟨sk, _, hf⟩ := hrow'
  by_cases hbecp : sk = "becp"
  · subst hbecp
    have hbl : DATA_SOURCES.lookup "becp" = some becp := rfl
    simp only [hbl] at hf
    have hurl : (match becp.stateUrl with
        | some f => if ("becp" == "becp" && state.abbr != "") = true
            then f state.abbr else becp.url
        | none => becp.url) = becpStateUrl state.abbr := by
      show (if ("becp" == "becp" && state.abbr != "") = true
          then becpStateUrl state.abbr else becp.url) = becpStateUrl state.abbr
      rw [if_pos]
      rw [habbr']
      rfl
    rw [Option.some.injEq] at hf
    rw [← hf]
    simp only [hurl]
    rw [Bool.or_eq_true]
    right
    exact beq_self_eq_true _
  · cases hlk : DATA_SOURCES.lookup sk with
    | none =>
      simp only [hlk] at hf
      exact absurd hf (by simp)
    | some src =>
      simp only [hlk] at hf
      rw [Option.some.injEq] at hf
      rw [← hf]
      rw [Bool.or_eq_true]
      left
      rw [bne_iff_ne]
      exact hbecp

/-- C9: for every local scope, the data-sources attribution is computed over
the merged mapping whose key set is the union of the state's and the local
record's CodeAdoption keys; the general-purpose local-ordinance source
(`municode`) is always included, even when no code-book maps to it; and for
the energy code the per-jurisdiction DOE BECP URL is preferred over the
generic one, both in the sources panel rows and in the per-card source
resolution. -/
theorem c9_sources_attribution (st : Jurisdiction) (loc : LocalRecord) (name : String)
    (hname : name ≠ "") (habbr : st.abbr ≠ "") :
    (showReport st (some loc) name).sources
        = buildSourcesPanel st true (objMerge st.adopted loc.adopted) ∧
    ((objMerge st.adopted loc.adopted).map Prod.fst).toFinset
        = (st.adopted.map Prod.fst).toFinset ∪ (loc.adopted.map Prod.fst).toFinset ∧
    "municode" ∈ (showReport st (some loc) name).sources.sources ∧
    ((showReport st (some loc) name).sources.rows.all
        (fun row => row.key != "becp" || (row.url == becpStateUrl st.abbr))) = true ∧
    resolveCardSourceUrl "IECC" st.abbr = some (becpStateUrl st.abbr) := by
  have hb := bne_empty_of_ne hname
  have habbr' : (st.abbr != "") = true := bne_empty_of_ne habbr
  have hsrc : (showReport st (some loc) name).sources
      = buildSourcesPanel st true (objMerge st.adopted loc.adopted) := by
    simp [showReport, hb]
  refine ⟨hsrc, ?_, ?_, ?_, ?_⟩
  · ext k
    simp only [List.mem_toFinset, Finset.mem_union]
    exact objMerge_keys st.adopted loc.adopted k
  · rw [hsrc]
    exact municode_mem_needed _
  · rw [hsrc]
    exact becp_row_urls st true _ habbr
  · unfold resolveCardSourceUrl
    rw [if_pos]
    · rfl
    · rw [habbr']
      rfl

/-- Witness for C9 at the concrete local scope Phoenix, AZ. -/
theorem c9_sources_attribution_witness :
    ((showReport AZ (some AZ_Phoenix) "Phoenix").sources
        = buildSourcesPanel AZ true (objMerge AZ.adopted AZ_Phoenix.adopted) ∧
     ((objMerge AZ.adopted AZ_Phoenix.adopted).map Prod.fst).toFinset
        = (AZ.adopted.map Prod.fst).toFinset ∪ (AZ_Phoenix.adopted.map Prod.fst).toFinset ∧
     "municode" ∈ (showReport AZ (some AZ_Phoenix) "Phoenix").sources.sources ∧
     ((showReport AZ (some AZ_Phoenix) "Phoenix").sources.rows.all
        (fun row => row.key != "becp" || (row.url == becpStateUrl AZ.abbr))) = true ∧
     resolveCardSourceUrl "IECC" AZ.abbr = some (becpStateUrl AZ.abbr)) :=
  c9_sources_attribution AZ AZ_Phoenix "Phoenix" (by decide) (by decide)

end Dashboard
